import Mathlib

/-!
# Verification of the YOUR_LOGS_CHECKER log normalization and scoring core

Shallow embedding of the repository's core pipeline
(`backend/core/services/`): the ML confidence scorer
(`ml_scoring.py`), the format detector (`log_detection.py`), the parser
factory (`parsers/factory.py`) and the three parsers
(`parsers/csv_parser.py`, `parsers/syslog_parser.py`,
`parsers/access_log_parser.py`).

Python values are modelled as follows: `float` scores become `ℚ`
(the scores are small decimal literals and the properties checked are
order comparisons), `datetime` becomes `PyDateTime` (calendar fields
plus an `aware` flag recording whether `tzinfo` is set), dictionary
fields that may be absent or `None` become `FieldVal`, and code that can
raise becomes `Except String`.  The ambient clock (`datetime.utcnow()`,
`django.utils.timezone.now()`) is passed explicitly as a `PyDateTime`
argument.  The project settings fix `TIME_ZONE = UTC` and
`USE_TZ = True`, so `timezone.now()` is an aware UTC datetime and
`timezone.make_aware` attaches UTC without shifting the fields.
-/

/-- Model of a Python `datetime.datetime`: calendar fields plus whether
the object is timezone-aware (`tzinfo is not None`).  With the
project's `TIME_ZONE = UTC` settings, awareness never shifts the field
values, so a single flag suffices. -/
structure PyDateTime where
  year : Nat
  month : Nat
  day : Nat
  hour : Nat
  minute : Nat
  second : Nat
  aware : Bool
deriving DecidableEq

/-- `django.utils.timezone.now()`: aware UTC now. -/
def djangoNow (now : PyDateTime) : PyDateTime := { now with aware := true }

/-- `datetime.utcnow()`: naive UTC now. -/
def pyUtcnow (now : PyDateTime) : PyDateTime := { now with aware := false }

/-- `django.utils.timezone.make_aware` under `TIME_ZONE = UTC`:
attaches UTC to a naive datetime, leaves an aware one unchanged
(`make_aware(t) if timezone.is_naive(t) else t`). -/
def makeAwareIfNaive (d : PyDateTime) : PyDateTime := { d with aware := true }

/-- ASCII model of Python `str.lower` on one character.  Every string
the embedded code lowercases (log lines, table keys, format tags) is
ASCII, so the ASCII case map is the exact behaviour; it is spelled out
here because the kernel must be able to evaluate it. -/
def pyCharLower (c : Char) : Char :=
  if 'A' ≤ c ∧ c ≤ 'Z' then Char.ofNat (c.toNat + 32) else c

/-- ASCII model of Python `str.lower`. -/
def pyStrLower (s : String) : String := String.mk (s.data.map pyCharLower)

/-- ASCII model of Python `str.upper` on one character. -/
def pyCharUpper (c : Char) : Char :=
  if 'a' ≤ c ∧ c ≤ 'z' then Char.ofNat (c.toNat - 32) else c

/-- ASCII model of Python `str.upper`. -/
def pyStrUpper (s : String) : String := String.mk (s.data.map pyCharUpper)

/-- Python `str` whitespace (`\s` of the `re` module, ASCII range). -/
def pyWs (c : Char) : Bool :=
  c = ' ' || c = '\t' || c = '\n' || c = '\r' ||
    c = Char.ofNat 11 || c = Char.ofNat 12

/-- Python `str.strip()` with no argument: trim whitespace at both
ends. -/
def pyStrip (s : String) : String :=
  String.mk (((s.data.dropWhile pyWs).reverse.dropWhile pyWs).reverse)

/-- Python `str.startswith`. -/
def pyStartsWith (sub s : String) : Bool := sub.data.isPrefixOf s.data

/-- Whether `sub` occurs as a contiguous run inside `l`. -/
def listInfix (sub : List Char) : List Char → Bool
  | [] => sub.isEmpty
  | c :: rest => sub.isPrefixOf (c :: rest) || listInfix sub rest

/-- Python substring test `sub in s` on strings. -/
def substrOf (sub s : String) : Bool := listInfix sub.toList s.toList

/-- A value stored under a key of the event dict handed to the scorer:
the key may be missing, may be `None`, may be a string, or (for
`timestamp`) a `datetime`. -/
inductive FieldVal where
  | absent
  | pynone
  | str (s : String)
  | dt (d : PyDateTime)
deriving DecidableEq

/-- The event dict consumed by `MLScorer.score_event`
(keys `timestamp`, `user`, `host`, `event_type`, `raw_message`);
`FieldVal.absent` models a missing key. -/
structure EventData where
  event_type : FieldVal
  raw_message : FieldVal
  user : FieldVal
  host : FieldVal
  timestamp : FieldVal
deriving DecidableEq

/-- Python `d.get(key, default)`: the default is used only when the key
is missing, not when it maps to `None`. -/
def dictGet (v default : FieldVal) : FieldVal :=
  match v with
  | FieldVal.absent => default
  | w => w

/-- Python `d[key]`: raises `KeyError` when the key is missing. -/
def dictGetItem (v : FieldVal) : Except String FieldVal :=
  match v with
  | FieldVal.absent => Except.error "KeyError"
  | w => Except.ok w

/-- Python `x.lower()`: defined on `str`, raises `AttributeError` on
`None` (and on a `datetime`). -/
def pyLower : FieldVal → Except String String
  | FieldVal.str s => Except.ok (pyStrLower s)
  | _ => Except.error "AttributeError: lower"

namespace MLScorer

/-- `MLScorer.RISK_KEYWORDS` (ml_scoring.py lines 18-44), in source
(insertion) order. -/
def RISK_KEYWORDS : List (String × ℚ) :=
  [("powershell", 4/10), ("cmd.exe", 3/10), ("mimikatz", 9/10),
   ("credential", 5/10), ("password", 4/10), ("admin", 3/10),
   ("root", 3/10), ("sudo", 3/10), ("exec", 3/10), ("remote", 3/10),
   ("rdp", 4/10), ("ssh", 3/10), ("login", 2/10), ("failed", 2/10),
   ("denied", 2/10), ("transfer", 3/10), ("download", 2/10),
   ("upload", 3/10), ("exploit", 8/10), ("payload", 7/10),
   ("shell", 4/10), ("backdoor", 9/10), ("trojan", 9/10),
   ("malware", 9/10)]

/-- `MLScorer.EVENT_TYPE_SCORES` (ml_scoring.py lines 47-55). -/
def EVENT_TYPE_SCORES : List (String × ℚ) :=
  [("powershell_exec", 4/10), ("remote_login", 3/10),
   ("admin_login", 4/10), ("file_transfer", 3/10),
   ("service_start", 1/10), ("process_creation", 2/10),
   ("network_connection", 2/10)]

/-- `MLScorer._score_event_type` (lines 98-112): first substring match
in `EVENT_TYPE_SCORES`, then first substring match in `RISK_KEYWORDS`
weighted by 0.8, else the 0.1 base score.  The receiving value must be
a string (`.lower()` is called on it). -/
def score_event_type (event_type : FieldVal) : Except String ℚ := do
  let event_type_lower ← pyLower event_type
  match EVENT_TYPE_SCORES.find? (fun p => substrOf p.1 event_type_lower) with
  | some p => return p.2
  | none =>
    match RISK_KEYWORDS.find? (fun p => substrOf p.1 event_type_lower) with
    | some p => return p.2 * (8/10)
    | none => return 1/10

/-- `MLScorer._score_keywords` (lines 114-123): running maximum over the
risk-keyword table, starting from 0.0, of the weights whose keyword is a
substring of the lowercased message. -/
def score_keywords (message : FieldVal) : Except String ℚ := do
  let message_lower ← pyLower message
  return RISK_KEYWORDS.foldl
    (fun acc p => if substrOf p.1 message_lower then max acc p.2 else acc) 0

/-- High-privilege markers of `MLScorer._score_user` (line 129). -/
def high_priv_users : List String :=
  ["admin", "administrator", "root", "system", "nt authority"]

/-- `MLScorer._score_user` (lines 125-134). -/
def score_user (user : FieldVal) : Except String ℚ := do
  let user_lower ← pyLower user
  return if high_priv_users.any (fun priv => substrOf priv user_lower)
    then 3/10 else 0

/-- `MLScorer._score_temporal` (lines 136-151): `if not timestamp`
catches `None` and the empty string (hence also an absent key fetched
with `.get`); a non-`datetime` truthy value falls through to 0.0; a
`datetime` scores 0.1 in the off-hours window. -/
def score_temporal (timestamp : FieldVal) : ℚ :=
  match timestamp with
  | FieldVal.dt d => if 22 ≤ d.hour ∨ d.hour < 6 then 1/10 else 0
  | _ => 0

/-- `MLScorer._assign_risk_label` (lines 153-162). -/
def assign_risk_label (confidence : ℚ) : String :=
  if 8/10 ≤ confidence then "CRITICAL"
  else if 6/10 ≤ confidence then "HIGH"
  else if 3/10 ≤ confidence then "MEDIUM"
  else "LOW"

/-- `MLScorer.apply_threshold` (lines 164-175). -/
def apply_threshold (confidence threshold : ℚ) : Bool :=
  threshold ≤ confidence

/-- `MLScorer.score_event` (lines 57-96).  `event_data['event_type']`
and `event_data['raw_message']` are mandatory subscripts (KeyError when
absent); `user` is fetched with default `''` and `timestamp` with
default `None`; `host` is not consulted.  The confidence is the sum of
the four feature scores clamped with `min(total_score, 1.0)`. -/
def score_event (event_data : EventData) :
    Except String (ℚ × String × List (String × ℚ)) := do
  let et ← dictGetItem event_data.event_type
  let event_type_score ← score_event_type et
  let rm ← dictGetItem event_data.raw_message
  let keyword_score ← score_keywords rm
  let user_score ← score_user (dictGet event_data.user (FieldVal.str ""))
  let time_score := score_temporal (dictGet event_data.timestamp FieldVal.pynone)
  let total_score := event_type_score + keyword_score + user_score + time_score
  let confidence := min total_score 1
  let risk_label := assign_risk_label confidence
  return (confidence, risk_label,
    [("event_type", event_type_score), ("keywords", keyword_score),
     ("user", user_score), ("temporal", time_score)])

end MLScorer

/-! ## Generic lemmas about the scorer's fold and lookup tables -/

/-- The value `_score_event_type` computes for a string argument. -/
def etValue (s : String) : ℚ :=
  match MLScorer.EVENT_TYPE_SCORES.find? (fun p => substrOf p.1 (pyStrLower s)) with
  | some p => p.2
  | none =>
    match MLScorer.RISK_KEYWORDS.find? (fun p => substrOf p.1 (pyStrLower s)) with
    | some p => p.2 * (8/10)
    | none => 1/10

/-- The value `_score_keywords` computes for a string argument. -/
def kwValue (s : String) : ℚ :=
  MLScorer.RISK_KEYWORDS.foldl
    (fun acc p => if substrOf p.1 (pyStrLower s) then max acc p.2 else acc) 0

/-- The value `_score_user` computes for a string argument. -/
def userValue (s : String) : ℚ :=
  if MLScorer.high_priv_users.any (fun priv => substrOf priv (pyStrLower s))
    then 3/10 else 0

/-! ## Regex combinators

The source matches log lines with `re` patterns.  The embedding uses
backtracking combinators over `List Char`: a quantified character class
tries the greedy (longest) split first and backtracks, which is exactly
the `re` semantics for the class/literal patterns appearing in this
repository.  Patterns are ASCII and single-line, so `.` (any character
but newline) never meets a newline. -/

namespace Re

/-- Try splits of length `k, k-1, ..., lo` (greedy order), passing
(consumed, rest) to the continuation. -/
def repAux (cs : List Char) (lo : Nat)
    (cont : List Char → List Char → Option a) : Nat → Option a
  | 0 => if 0 < lo then none else cont [] cs
  | Nat.succ k2 =>
    if Nat.succ k2 < lo then none
    else
      match cont (cs.take (Nat.succ k2)) (cs.drop (Nat.succ k2)) with
      | some r => some r
      | none => repAux cs lo cont k2

/-- Greedy bounded repetition `p{lo,hi}` of a character class with
backtracking. -/
def rep (p : Char → Bool) (lo hi : Nat) (cs : List Char)
    (cont : List Char → List Char → Option a) : Option a :=
  repAux cs lo cont (min hi (cs.takeWhile p).length)

/-- Greedy `p+`. -/
def plus (p : Char → Bool) (cs : List Char)
    (cont : List Char → List Char → Option a) : Option a :=
  rep p 1 cs.length cs cont

/-- Greedy `p*`. -/
def star (p : Char → Bool) (cs : List Char)
    (cont : List Char → List Char → Option a) : Option a :=
  rep p 0 cs.length cs cont

/-- Try splits of length `k, k+1, ...` (lazy order); the fuel bounds the
largest split tried. -/
def lazyAux (cs : List Char) (cont : List Char → List Char → Option a)
    (k : Nat) : Nat → Option a
  | 0 => none
  | Nat.succ fuel =>
    match cont (cs.take k) (cs.drop k) with
    | some r => some r
    | none => lazyAux cs cont (k + 1) fuel

/-- Lazy repetition `p+?` of a character class. -/
def lazyPlus (p : Char → Bool) (cs : List Char)
    (cont : List Char → List Char → Option a) : Option a :=
  let run := (cs.takeWhile p).length
  if run < 1 then none else lazyAux cs cont 1 run

/-- A literal character. -/
def lit (c : Char) (cs : List Char) (cont : List Char → Option a) :
    Option a :=
  match cs with
  | [] => none
  | d :: rest => if d = c then cont rest else none

/-- A literal string. -/
def lits (t : String) (cs : List Char) (cont : List Char → Option a) :
    Option a :=
  if t.data.isPrefixOf cs then cont (cs.drop t.data.length) else none

/-- Ordered alternation of literal strings, with backtracking into the
continuation. -/
def alts (ts : List String) (cs : List Char)
    (cont : String → List Char → Option a) : Option a :=
  match ts with
  | [] => none
  | t :: rest =>
    match (if t.data.isPrefixOf cs
           then cont t (cs.drop t.data.length) else none) with
    | some r => some r
    | none => alts rest cs cont

/-- Ordered alternation of literal strings, matched case-insensitively
(`re.IGNORECASE`); the alternatives are given lowercased. -/
def altsCI (ts : List String) (cs : List Char)
    (cont : String → List Char → Option a) : Option a :=
  match ts with
  | [] => none
  | t :: rest =>
    match (if (cs.take t.data.length).map pyCharLower = t.data
           then cont t (cs.drop t.data.length) else none) with
    | some r => some r
    | none => altsCI rest cs cont

/-- `.`: any character except newline (no DOTALL). -/
def dot (c : Char) : Bool := c != '\n'

/-- `\S`. -/
def nonWs (c : Char) : Bool := !pyWs c

end Re

/-! ## Format detection (`log_detection.py`)

The detector reads at most the first line of the file: `firstLine` is
that line without its trailing newline, and `none` models a file that
cannot be read (every helper catches the exception and returns
`False`).  The extension argument is `os.path.splitext(filename)[1]`;
the detector lowercases it itself. -/

/-- HTTP methods of the access-log heuristic's regex. -/
def accessMethods : List String :=
  ["GET", "POST", "PUT", "DELETE", "HEAD", "OPTIONS", "PATCH"]

/-- The heuristic regex of `_is_access_log_format`
(log_detection.py lines 76-78):
an anchored IPv4-looking token, whitespace, a bracketed section and a
quoted HTTP method. -/
def accessLinePattern (cs : List Char) : Option Unit :=
  Re.rep Char.isDigit 1 3 cs (fun _ r1 =>
  Re.lit '.' r1 (fun r2 =>
  Re.rep Char.isDigit 1 3 r2 (fun _ r3 =>
  Re.lit '.' r3 (fun r4 =>
  Re.rep Char.isDigit 1 3 r4 (fun _ r5 =>
  Re.lit '.' r5 (fun r6 =>
  Re.rep Char.isDigit 1 3 r6 (fun _ r7 =>
  Re.plus pyWs r7 (fun _ r8 =>
  Re.star Re.dot r8 (fun _ r9 =>
  Re.lit '[' r9 (fun r10 =>
  Re.star Re.dot r10 (fun _ r11 =>
  Re.lit ']' r11 (fun r12 =>
  Re.plus pyWs r12 (fun _ r13 =>
  Re.lit '"' r13 (fun r14 =>
  Re.alts accessMethods r14 (fun _ _ => some ())))))))))))))))

/-- `_is_access_log_format` (log_detection.py lines 68-81). -/
def is_access_log_format (firstLine : Option String) : Bool :=
  match firstLine with
  | none => false
  | some line => (accessLinePattern line.data).isSome

/-- Indicator tokens of `_is_syslog_format` (log_detection.py line 62). -/
def syslog_indicators : List String := ["<", ">", "kernel:", "syslog", "daemon"]

/-- `_is_syslog_format` (log_detection.py lines 55-65): any indicator
occurring in the lowercased first line. -/
def is_syslog_format (firstLine : Option String) : Bool :=
  match firstLine with
  | none => false
  | some line =>
    syslog_indicators.any (fun ind => substrOf ind (pyStrLower line))

/-- `_is_csv_format` (log_detection.py lines 44-52): the first line
contains a comma and at least two commas in total. -/
def is_csv_format (firstLine : Option String) : Bool :=
  match firstLine with
  | none => false
  | some line => substrOf "," line && 2 ≤ line.data.count ','

/-- `detect_log_type` (log_detection.py lines 9-41): extension match
first, then the access-log and syslog heuristics for `.log`/`.txt`,
then the CSV fallback, else UNKNOWN. -/
def detect_log_type (ext : String) (firstLine : Option String) : String :=
  let extension := pyStrLower ext
  if extension = ".csv" then "CSV"
  else if extension = ".evtx" then "EVTX"
  else if extension = ".json" then "JSON"
  else if extension = ".log" ∨ extension = ".txt" then
    if is_access_log_format firstLine then "ACCESS_LOG"
    else if is_syslog_format firstLine then "SYSLOG"
    else if is_csv_format firstLine then "CSV"
    else "UNKNOWN"
  else if is_csv_format firstLine then "CSV"
  else "UNKNOWN"

/-! ## Parser factory (`parsers/factory.py`) -/

/-- A Python parser class, abstracted to its name and whether it
subclasses `BaseParser`. -/
structure PyClass where
  name : String
  inheritsBaseParser : Bool
deriving DecidableEq

/-- The registry dict `ParserFactory._parsers`. -/
abbrev Registry := List (String × PyClass)

/-- Initial `ParserFactory._parsers` (factory.py lines 16-20): only the
CSV and SYSLOG entries are registered. -/
def initialParsers : Registry :=
  [("CSV", { name := "CSVParser", inheritsBaseParser := true }),
   ("SYSLOG", { name := "SyslogParser", inheritsBaseParser := true })]

/-- Python `dict.get` on the registry. -/
def registryGet (r : Registry) (k : String) : Option PyClass :=
  (r.find? (fun p => p.1 = k)).map (fun p => p.2)

/-- Python `dict[k] = v` on the registry: replace an existing binding,
else append. -/
def registrySet (r : Registry) (k : String) (v : PyClass) : Registry :=
  if r.any (fun p => p.1 = k)
    then r.map (fun p => if p.1 = k then (k, v) else p)
    else r ++ [(k, v)]

/-- `ParserFactory.get_parser` (factory.py lines 22-36): dict lookup on
the uppercased tag; an instance of the found class, else `None`. -/
def getParser (r : Registry) (log_type : String) : Option PyClass :=
  match registryGet r (pyStrUpper log_type) with
  | some parser_class => some parser_class
  | none => none

/-- `ParserFactory.register_parser` (factory.py lines 38-49): raises
`ValueError` unless the class subclasses `BaseParser`, else stores it
under the uppercased tag. -/
def registerParser (r : Registry) (log_type : String)
    (parser_class : PyClass) : Except String Registry :=
  if ¬ parser_class.inheritsBaseParser
    then Except.error "ValueError: Parser must inherit from BaseParser"
    else Except.ok (registrySet r (pyStrUpper log_type) parser_class)

/-! ## Normalized events and timestamp parsing -/

/-- A value stored in `extra_data`: the parsers store strings, ints
(status codes, sizes) and floats (response times). -/
inductive ExtraVal where
  | s (v : String)
  | n (v : Int)
  | q (v : ℚ)
deriving DecidableEq

/-- The normalized event dict produced by every parser
(`timestamp`, `user`, `host`, `event_type`, `raw_message`,
`line_number`, and optionally `extra_data`; parsers that omit
`extra_data` are modelled with an empty list). -/
structure NormalizedEvent where
  timestamp : PyDateTime
  user : String
  host : String
  event_type : String
  raw_message : String
  line_number : Nat
  extra_data : List (String × ExtraVal)
deriving DecidableEq

/-- `BaseParser.validate_event` (base.py lines 42-47): checks that the
four required keys are present; every event dict built by the embedded
parsers contains them statically, so the check is identically true. -/
def validate_event (e : NormalizedEvent) : Bool := true

/-- Decimal digits of `n`, least significant first; the fuel argument
(`n + 1` at the call site) bounds the recursion. -/
def natToRevDigits : Nat → Nat → List Char
  | 0, _ => []
  | fuel + 1, n =>
    if n < 10 then [Char.ofNat (48 + n)]
    else Char.ofNat (48 + n % 10) :: natToRevDigits fuel (n / 10)

/-- Python `str(n)` for a natural number. -/
def natToStr (n : Nat) : String := String.mk (natToRevDigits (n + 1) n).reverse

/-- Take up to `n` leading decimal digits. -/
def takeDigits : Nat → List Char → List Char × List Char
  | 0, s => ([], s)
  | _ + 1, [] => ([], [])
  | n + 1, c :: rest =>
    if c.isDigit then
      let (ds, r) := takeDigits n rest
      (c :: ds, r)
    else ([], c :: rest)

/-- Numeric value of a digit run. -/
def digitsVal (ds : List Char) : Nat :=
  ds.foldl (fun a c => a * 10 + (c.toNat - 48)) 0

/-- Lowercased month abbreviations recognised by `%b`, in month
order. -/
def monthAbbrevs : List String :=
  ["jan", "feb", "mar", "apr", "may", "jun",
   "jul", "aug", "sep", "oct", "nov", "dec"]

/-- Match a month abbreviation (case-insensitively) at the head of the
input, returning the month number and the rest. -/
def monthIndexAux (abbrevs : List String) (i : Nat) (s : List Char) :
    Option (Nat × List Char) :=
  match abbrevs with
  | [] => none
  | ab :: rest =>
    if (s.take ab.data.length).map pyCharLower = ab.data
      then some (i, s.drop ab.data.length)
      else monthIndexAux rest (i + 1) s

def monthIndex (s : List Char) : Option (Nat × List Char) :=
  monthIndexAux monthAbbrevs 1 s

/-- Partially filled `datetime.strptime` fields. -/
structure TimeFields where
  year : Option Nat
  month : Option Nat
  day : Option Nat
  hour : Option Nat
  minute : Option Nat
  second : Option Nat
deriving DecidableEq

def TimeFields.empty : TimeFields :=
  { year := none, month := none, day := none,
    hour := none, minute := none, second := none }

/-- Core of the `datetime.strptime` model, structurally recursive on
the format.  Directives follow CPython's `_strptime` regexes restricted
to this repository's format strings (`%d %m %H %M %S` are 1-2 digit
fields with their CPython value bounds, `%Y` is exactly four digits,
`%b` a case-insensitive month abbreviation, `%f` 1-6 discarded digits;
a literal whitespace matches a nonempty whitespace run; other
characters match literally; the whole input must be consumed).  Every
numeric field in these formats is followed by a non-digit literal or
the end, so maximal-munch digit parsing coincides with the regex's
backtracking behaviour. -/
def strptimeRun : List Char → List Char → TimeFields → Option TimeFields
  | [], s, acc => if s.isEmpty then some acc else none
  | '%' :: 'd' :: fr, s, acc =>
    let (ds, r) := takeDigits 2 s
    let v := digitsVal ds
    if ds.length ≥ 1 ∧ 1 ≤ v ∧ v ≤ 31
      then strptimeRun fr r { acc with day := some v } else none
  | '%' :: 'm' :: fr, s, acc =>
    let (ds, r) := takeDigits 2 s
    let v := digitsVal ds
    if ds.length ≥ 1 ∧ 1 ≤ v ∧ v ≤ 12
      then strptimeRun fr r { acc with month := some v } else none
  | '%' :: 'H' :: fr, s, acc =>
    let (ds, r) := takeDigits 2 s
    let v := digitsVal ds
    if ds.length ≥ 1 ∧ v ≤ 23
      then strptimeRun fr r { acc with hour := some v } else none
  | '%' :: 'M' :: fr, s, acc =>
    let (ds, r) := takeDigits 2 s
    let v := digitsVal ds
    if ds.length ≥ 1 ∧ v ≤ 59
      then strptimeRun fr r { acc with minute := some v } else none
  | '%' :: 'S' :: fr, s, acc =>
    let (ds, r) := takeDigits 2 s
    let v := digitsVal ds
    if ds.length ≥ 1 ∧ v ≤ 61
      then strptimeRun fr r { acc with second := some v } else none
  | '%' :: 'Y' :: fr, s, acc =>
    let (ds, r) := takeDigits 4 s
    if ds.length = 4
      then strptimeRun fr r { acc with year := some (digitsVal ds) } else none
  | '%' :: 'b' :: fr, s, acc =>
    match monthIndex s with
    | some (i, r) => strptimeRun fr r { acc with month := some i }
    | none => none
  | '%' :: 'f' :: fr, s, acc =>
    let (ds, r) := takeDigits 6 s
    if ds.length ≥ 1 then strptimeRun fr r acc else none
  | '%' :: _ :: _, _, _ => none
  | c :: fr, s, acc =>
    if pyWs c then
      if (s.takeWhile pyWs).isEmpty then none
      else strptimeRun fr (s.dropWhile pyWs) acc
    else
      match s with
      | [] => none
      | d :: rest => if d = c then strptimeRun fr rest acc else none

/-- `datetime.strptime` model: missing fields default to 1900-01-01
00:00:00; the result is naive. -/
def strptime (fmt s : String) : Option PyDateTime :=
  (strptimeRun fmt.data s.data TimeFields.empty).map (fun f =>
    { year := f.year.getD 1900, month := f.month.getD 1,
      day := f.day.getD 1, hour := f.hour.getD 0,
      minute := f.minute.getD 0, second := f.second.getD 0,
      aware := false })

/-! ## Syslog parser (`parsers/syslog_parser.py`) -/

/-- `\w` of the `re` module (ASCII range; the log lines here are
ASCII). -/
def pyWordChar (c : Char) : Bool := c.isAlphanum || c = '_'

/-- `SyslogParser.SYSLOG_PATTERN` (syslog_parser.py lines 18-23):
`(?P<timestamp>\w{3}\s+\d{1,2}\s+\d{2}:\d{2}:\d{2})\s+(?P<host>\S+)\s+`
`(?P<process>\S+?):\s+(?P<message>.*)`, matched with `re.match`.
Returns (timestamp, host, process, message). -/
def syslogMatch (cs : List Char) :
    Option (String × String × String × String) :=
  Re.rep pyWordChar 3 3 cs (fun w3 r1 =>
  Re.plus pyWs r1 (fun ws1 r2 =>
  Re.rep Char.isDigit 1 2 r2 (fun day r3 =>
  Re.plus pyWs r3 (fun ws2 r4 =>
  Re.rep Char.isDigit 2 2 r4 (fun hh r5 =>
  Re.lit ':' r5 (fun r6 =>
  Re.rep Char.isDigit 2 2 r6 (fun mm r7 =>
  Re.lit ':' r7 (fun r8 =>
  Re.rep Char.isDigit 2 2 r8 (fun ss r9 =>
  Re.plus pyWs r9 (fun _ r10 =>
  Re.plus Re.nonWs r10 (fun host r11 =>
  Re.plus pyWs r11 (fun _ r12 =>
  Re.lazyPlus Re.nonWs r12 (fun proc r13 =>
  Re.lit ':' r13 (fun r14 =>
  Re.plus pyWs r14 (fun _ r15 =>
  Re.star Re.dot r15 (fun msg _ =>
  some (String.mk (w3 ++ ws1 ++ day ++ ws2 ++ hh ++ [':'] ++ mm ++
          [':'] ++ ss),
        String.mk host, String.mk proc, String.mk msg)))))))))))))))))

/-- `SyslogParser._parse_syslog_timestamp` (lines 71-80): append the
current year and parse with `"%b %d %H:%M:%S %Y"`; on failure fall back
to `datetime.utcnow()`.  Both results are naive datetimes. -/
def parse_syslog_timestamp (timestamp_str : String) (now : PyDateTime) :
    PyDateTime :=
  match strptime "%b %d %H:%M:%S %Y"
      (timestamp_str ++ " " ++ natToStr now.year) with
  | some dt => dt
  | none => pyUtcnow now

/-- `SyslogParser._parse_syslog_line` (lines 45-69). -/
def parse_syslog_line (line : String) (line_num : Nat) (now : PyDateTime) :
    NormalizedEvent :=
  match syslogMatch line.data with
  | some (ts, host, process, message) =>
    { timestamp := parse_syslog_timestamp ts now,
      user := "", host := host, event_type := process,
      raw_message := message, line_number := line_num, extra_data := [] }
  | none =>
    { timestamp := pyUtcnow now, user := "", host := "",
      event_type := "SYSLOG", raw_message := line,
      line_number := line_num, extra_data := [] }

/-- `SyslogParser.parse` (lines 25-43): enumerate lines from 1, strip,
skip blanks, parse each line, keep validated events.  The model's
`lines` are the file's lines without their trailing newlines. -/
def syslogParse (lines : List String) (now : PyDateTime) :
    List NormalizedEvent :=
  lines.enum.filterMap (fun p =>
    let line := pyStrip p.2
    if line = "" then none
    else
      let event := parse_syslog_line line (p.1 + 1) now
      if validate_event event then some event else none)

/-! ## CSV parser (`parsers/csv_parser.py`)

The file-to-rows step (`csv.DictReader` / pandas, plus the dialect
sniffer) is a library boundary; a row is modelled as the ordered
key/value list the reader yields.  Row mapping, which is where all the
repository's logic lives, is embedded in full. -/

/-- Python `str.strip(chars)`: remove the given characters from both
ends. -/
def pyStripChars (chars : List Char) (s : String) : String :=
  String.mk (((s.data.dropWhile (chars.contains ·)).reverse.dropWhile
    (chars.contains ·)).reverse)

/-- Python `str.split()` with no argument: split on whitespace runs,
dropping empty tokens. -/
def pySplitWs (s : String) : List String :=
  let r := s.data.foldr
    (fun c acc =>
      if pyWs c then
        if acc.2.isEmpty then acc else (acc.2 :: acc.1, [])
      else (acc.1, c :: acc.2))
    ([], [])
  (if r.2.isEmpty then r.1 else r.2 :: r.1).map String.mk

/-- Join with a separator (Python `sep.join`). -/
def joinSep (sep : String) : List String → String
  | [] => ""
  | [x] => x
  | x :: rest => x ++ sep ++ joinSep sep rest

/-- Model of the third-party `dateutil.parser.parse` used by
`BaseParser.normalize_timestamp`, restricted to the ISO datetime forms
this development evaluates it on; other inputs are treated as
unparseable (`none`), which the caller maps to the documented
current-time fallback. -/
def dateutilParse (value : String) : Option PyDateTime :=
  match strptime "%Y-%m-%d %H:%M:%S" value with
  | some dt => some dt
  | none => strptime "%Y-%m-%dT%H:%M:%S" value

/-- `BaseParser.normalize_timestamp` (base.py lines 29-40): parse with
dateutil, and on any failure fall back to `datetime.utcnow()` (a naive
datetime).  It never raises. -/
def normalize_timestamp (timestamp_str : String) (now : PyDateTime) :
    PyDateTime :=
  match dateutilParse timestamp_str with
  | some dt => dt
  | none => pyUtcnow now

/-- `CSVParser._try_parse_timestamp` (csv_parser.py lines 169-191).
Rejects values shorter than 8 characters; a bracketed value is
stripped of brackets, its first whitespace token parsed with the
Apache format (`'[  ]'.split()[0]` raises `IndexError` when the
stripped value is all whitespace — that exception escapes this
function); otherwise `normalize_timestamp`, which cannot fail, so the
non-bracket path always returns a datetime. -/
def try_parse_timestamp (value : String) (now : PyDateTime) :
    Except String (Option PyDateTime) :=
  if value = "" ∨ value.data.length < 8 then Except.ok none
  else if pyStartsWith "[" value then
    match (pySplitWs (pyStripChars ['[', ']'] value)).head? with
    | none => Except.error "IndexError"
    | some cleaned =>
      match strptime "%d/%b/%Y:%H:%M:%S" cleaned with
      | some dt => Except.ok (some dt)
      | none => Except.ok (some (normalize_timestamp value now))
  else Except.ok (some (normalize_timestamp value now))

/-- Timestamp column-name keywords (csv_parser.py line 151). -/
def timestamp_keywords : List String :=
  ["time", "timestamp", "date", "datetime", "created", "logged", "when"]

/-- First pass of `_find_timestamp_smart`: columns whose name contains
a timestamp keyword; `keyFiltered = false` gives the second pass over
all columns.  A parsed value is made timezone-aware. -/
def findTsPass (keyFiltered : Bool) (row : List (String × String))
    (now : PyDateTime) : Except String (Option PyDateTime) :=
  match row with
  | [] => Except.ok none
  | (k, v) :: rest =>
    if keyFiltered →
        timestamp_keywords.any (fun kw => substrOf kw (pyStrLower k)) then
      match try_parse_timestamp v now with
      | Except.error e => Except.error e
      | Except.ok (some parsed) => Except.ok (some (makeAwareIfNaive parsed))
      | Except.ok none => findTsPass keyFiltered rest now
    else findTsPass keyFiltered rest now

/-- `CSVParser._find_timestamp_smart` (lines 143-167): keyword-named
columns first, then every column, then the aware current time. -/
def find_timestamp_smart (row : List (String × String))
    (now : PyDateTime) : Except String PyDateTime :=
  match findTsPass true row now with
  | Except.error e => Except.error e
  | Except.ok (some dt) => Except.ok dt
  | Except.ok none =>
    match findTsPass false row now with
    | Except.error e => Except.error e
    | Except.ok (some dt) => Except.ok dt
    | Except.ok none => Except.ok (djangoNow now)

/-- User column-name keywords (csv_parser.py line 195). -/
def user_keywords : List String :=
  ["user", "username", "account", "actor", "identity", "login"]

/-- `CSVParser._find_user` (lines 193-200). -/
def find_user (row : List (String × String)) : String :=
  match row.find? (fun kv =>
      user_keywords.any (fun kw => substrOf kw (pyStrLower kv.1))) with
  | some kv => kv.2
  | none => ""

/-- `CSVParser.IP_PATTERN` applied at one position:
`(?:\d{1,3}\.){3}\d{1,3}` with a word boundary after (the leading
boundary is checked by the scanner).  A digit run longer than 3 can
never satisfy the following `.`/boundary under backtracking, so each
group is the maximal digit run of length 1-3. -/
def ipAt (cs : List Char) : Bool :=
  let g := fun (cs : List Char) =>
    let ds := cs.takeWhile Char.isDigit
    if 1 ≤ ds.length ∧ ds.length ≤ 3 then some (cs.drop ds.length) else none
  match g cs with
  | none => false
  | some r1 =>
    match r1 with
    | '.' :: r1b =>
      match g r1b with
      | none => false
      | some r2 =>
        match r2 with
        | '.' :: r2b =>
          match g r2b with
          | none => false
          | some r3 =>
            match r3 with
            | '.' :: r3b =>
              match g r3b with
              | none => false
              | some r4 =>
                match r4 with
                | [] => true
                | c :: _ => !pyWordChar c
            | _ => false
        | _ => false
    | _ => false

/-- `re.search` scan for `IP_PATTERN`, tracking the word-boundary
context before each candidate start. -/
def ipScan (prev : Option Char) (cs : List Char) : Bool :=
  match cs with
  | [] => false
  | c :: rest =>
    ((match prev with
      | none => true
      | some p => !pyWordChar p) && ipAt (c :: rest)) ||
    ipScan (some c) rest

/-- `CSVParser._is_ip_address` (lines 226-230). -/
def is_ip_address (value : String) : Bool :=
  if value = "" then false else ipScan none value.data

/-- IP column-name keywords (csv_parser.py line 207). -/
def ip_keywords : List String :=
  ["ip", "src_ip", "source_ip", "dest_ip", "destination_ip",
   "client_ip", "remote_ip"]

/-- Host column-name keywords (csv_parser.py line 219). -/
def host_keywords : List String :=
  ["host", "hostname", "computer", "source", "server", "machine"]

/-- `CSVParser._find_host_smart` (lines 202-224): IP-named columns whose
value is an IP, then any column whose value contains an IP, then
hostname-named columns, else empty. -/
def find_host_smart (row : List (String × String)) : String :=
  match row.find? (fun kv =>
      (ip_keywords.any (fun kw => substrOf kw (pyStrLower kv.1))) &&
      kv.2 ≠ "" && is_ip_address kv.2) with
  | some kv => kv.2
  | none =>
    match row.find? (fun kv => kv.2 ≠ "" && is_ip_address kv.2) with
    | some kv => kv.2
    | none =>
      match row.find? (fun kv =>
          host_keywords.any (fun kw => substrOf kw (pyStrLower kv.1))) with
      | some kv => kv.2
      | none => ""

/-- Action column-name keywords (csv_parser.py line 238). -/
def action_keywords : List String :=
  ["action", "event_type", "event", "activity", "operation", "method"]

/-- URL column-name keywords (csv_parser.py line 244). -/
def url_keywords : List String := ["url", "request", "uri", "path"]

/-- ID column-name keywords (csv_parser.py line 254). -/
def id_keywords : List String := ["event_id", "eventid", "id", "code"]

/-- Second pass of `_find_event_type_smart`: URL columns, taking the
first whitespace token of a nonempty value that has one. -/
def findEventTypeUrl (row : List (String × String)) : Option String :=
  match row with
  | [] => none
  | (k, v) :: rest =>
    if url_keywords.any (fun kw => substrOf kw (pyStrLower k)) ∧ v ≠ "" then
      match (pySplitWs v).head? with
      | some tok => some tok
      | none => findEventTypeUrl rest
    else findEventTypeUrl rest

/-- `CSVParser._find_event_type_smart` (lines 232-264). -/
def find_event_type_smart (row : List (String × String)) : String :=
  match row.find? (fun kv =>
      action_keywords.any (fun kw => substrOf kw (pyStrLower kv.1))) with
  | some kv => kv.2
  | none =>
    match findEventTypeUrl row with
    | some tok => tok
    | none =>
      match row.find? (fun kv =>
          id_keywords.any (fun kw => substrOf kw (pyStrLower kv.1))) with
      | some kv => kv.2
      | none =>
        match row.find? (fun kv => kv.2 ≠ "") with
        | some kv => kv.2
        | none => "UNKNOWN"

/-- Key cleaning of the `extra_data` loop (csv_parser.py line 130):
strip, replace spaces and dots with underscores, lowercase. -/
def cleanKey (k : String) : String :=
  pyStrLower (String.mk ((pyStrip k).data.map
    (fun c => if c = ' ' ∨ c = '.' then '_' else c)))

/-- `CSVParser._map_csv_row` (lines 102-141). -/
def map_csv_row (row : List (String × String)) (line_num : Nat)
    (now : PyDateTime) : Except String NormalizedEvent :=
  match find_timestamp_smart row now with
  | Except.error e => Except.error e
  | Except.ok timestamp =>
    Except.ok
      { timestamp := makeAwareIfNaive timestamp,
        user := find_user row,
        host := find_host_smart row,
        event_type := find_event_type_smart row,
        raw_message := joinSep " | "
          (row.filterMap (fun kv =>
            if kv.2 ≠ "" then some (kv.1 ++ "=" ++ kv.2) else none)),
        line_number := line_num,
        extra_data := row.filterMap (fun kv =>
          if kv.2 ≠ "" then some (cleanKey kv.1, ExtraVal.s kv.2)
          else none) }

/-- The per-row loop of `CSVParser._parse_with_csv` /
`_parse_with_pandas` (lines 54-64, 90-98): data rows are numbered from
2 (after the header), a failing row is skipped, validated events are
collected. -/
def csvParse (rows : List (List (String × String))) (now : PyDateTime) :
    List NormalizedEvent :=
  rows.enum.filterMap (fun p =>
    match map_csv_row p.2 (p.1 + 2) now with
    | Except.error _ => none
    | Except.ok event => if validate_event event then some event else none)

/-- The scorer input dict the orchestrator builds from a parsed
event. -/
def eventDataOfEvent (ev : NormalizedEvent) : EventData :=
  { event_type := FieldVal.str ev.event_type,
    raw_message := FieldVal.str ev.raw_message,
    user := FieldVal.str ev.user,
    host := FieldVal.str ev.host,
    timestamp := FieldVal.dt ev.timestamp }

/-! ## Access-log parser (`parsers/access_log_parser.py`) -/

/-- The named groups of `AccessLogParser.PATTERNS`; a group absent from
a pattern (or an unparticipating optional group) is `none`, matching
`groupdict()` returning `None`. -/
structure AccessGroups where
  ip : Option String := none
  ident : Option String := none
  user : Option String := none
  timestamp : Option String := none
  method : Option String := none
  path : Option String := none
  protocol : Option String := none
  status : Option String := none
  size : Option String := none
  referer : Option String := none
  user_agent : Option String := none
  request : Option String := none
  extra : Option String := none
deriving DecidableEq

/-- The shared core of the Combined and Common log format patterns
(access_log_parser.py lines 23-44):
`(?P<ip>\S+)\s+(?P<ident>\S+)\s+(?P<user>\S+)\s+\[(?P<timestamp>[^\]]+)\]`
`\s+"(?P<method>\S+)\s+(?P<path>\S+)\s*(?P<protocol>[^"]*)"\s+`
`(?P<status>\d+)\s+(?P<size>\S+)`. -/
def clfCore (cs : List Char)
    (k : String → String → String → String → String → String → String →
      String → String → List Char → Option AccessGroups) :
    Option AccessGroups :=
  Re.plus Re.nonWs cs (fun ip r1 =>
  Re.plus pyWs r1 (fun _ r2 =>
  Re.plus Re.nonWs r2 (fun ident r3 =>
  Re.plus pyWs r3 (fun _ r4 =>
  Re.plus Re.nonWs r4 (fun user r5 =>
  Re.plus pyWs r5 (fun _ r6 =>
  Re.lit '[' r6 (fun r7 =>
  Re.plus (fun c => c != ']') r7 (fun ts r8 =>
  Re.lit ']' r8 (fun r9 =>
  Re.plus pyWs r9 (fun _ r10 =>
  Re.lit '"' r10 (fun r11 =>
  Re.plus Re.nonWs r11 (fun method r12 =>
  Re.plus pyWs r12 (fun _ r13 =>
  Re.plus Re.nonWs r13 (fun path r14 =>
  Re.star pyWs r14 (fun _ r15 =>
  Re.star (fun c => c != '"') r15 (fun protocol r16 =>
  Re.lit '"' r16 (fun r17 =>
  Re.plus pyWs r17 (fun _ r18 =>
  Re.plus Char.isDigit r18 (fun status r19 =>
  Re.plus pyWs r19 (fun _ r20 =>
  Re.plus Re.nonWs r20 (fun size r21 =>
  k (String.mk ip) (String.mk ident) (String.mk user) (String.mk ts)
    (String.mk method) (String.mk path) (String.mk protocol)
    (String.mk status) (String.mk size) r21)))))))))))))))))))))

/-- An optional trailing quoted group `(?:\s+"(?P<g>[^"]*)")?`, greedy
with backtracking into the continuation. -/
def optQuoted (cs : List Char)
    (k : Option String → List Char → Option AccessGroups) :
    Option AccessGroups :=
  match Re.plus pyWs cs (fun _ r1 =>
      Re.lit '"' r1 (fun r2 =>
      Re.star (fun c => c != '"') r2 (fun g r3 =>
      Re.lit '"' r3 (fun r4 => k (some (String.mk g)) r4)))) with
  | some res => some res
  | none => k none cs

/-- An optional trailing group `(?:\s+(?P<extra>.*))?`. -/
def optExtra (cs : List Char)
    (k : Option String → List Char → Option AccessGroups) :
    Option AccessGroups :=
  match Re.plus pyWs cs (fun _ r1 =>
      Re.star Re.dot r1 (fun g r2 => k (some (String.mk g)) r2)) with
  | some res => some res
  | none => k none cs

/-- `PATTERNS[0]`, the Combined Log Format (lines 22-34). -/
def matchCombined (line : String) : Option AccessGroups :=
  clfCore line.data (fun ip ident user ts method path protocol status size
      rest =>
    optQuoted rest (fun referer r1 =>
    optQuoted r1 (fun ua r2 =>
    optExtra r2 (fun extra _ =>
      some { ip := some ip, ident := some ident, user := some user,
             timestamp := some ts, method := some method,
             path := some path, protocol := some protocol,
             status := some status, size := some size,
             referer := referer, user_agent := ua, extra := extra }))))

/-- `PATTERNS[1]`, the Common Log Format (lines 35-44). -/
def matchCommon (line : String) : Option AccessGroups :=
  clfCore line.data (fun ip ident user ts method path protocol status size
      _ =>
    some { ip := some ip, ident := some ident, user := some user,
           timestamp := some ts, method := some method,
           path := some path, protocol := some protocol,
           status := some status, size := some size })

/-- `PATTERNS[2]`, the Nginx default format (lines 45-56). -/
def matchNginx (line : String) : Option AccessGroups :=
  Re.plus Re.nonWs line.data (fun ip r1 =>
  Re.plus pyWs r1 (fun _ r2 =>
  Re.lit '-' r2 (fun r3 =>
  Re.plus pyWs r3 (fun _ r4 =>
  Re.plus Re.nonWs r4 (fun user r5 =>
  Re.plus pyWs r5 (fun _ r6 =>
  Re.lit '[' r6 (fun r7 =>
  Re.plus (fun c => c != ']') r7 (fun ts r8 =>
  Re.lit ']' r8 (fun r9 =>
  Re.plus pyWs r9 (fun _ r10 =>
  Re.lit '"' r10 (fun r11 =>
  Re.plus (fun c => c != '"') r11 (fun request r12 =>
  Re.lit '"' r12 (fun r13 =>
  Re.plus pyWs r13 (fun _ r14 =>
  Re.plus Char.isDigit r14 (fun status r15 =>
  Re.plus pyWs r15 (fun _ r16 =>
  Re.plus Re.nonWs r16 (fun size r17 =>
  Re.plus pyWs r17 (fun _ r18 =>
  Re.lit '"' r18 (fun r19 =>
  Re.star (fun c => c != '"') r19 (fun referer r20 =>
  Re.lit '"' r20 (fun r21 =>
  Re.plus pyWs r21 (fun _ r22 =>
  Re.lit '"' r22 (fun r23 =>
  Re.star (fun c => c != '"') r23 (fun ua r24 =>
  Re.lit '"' r24 (fun r25 =>
  optExtra r25 (fun extra _ =>
    some { ip := some (String.mk ip), user := some (String.mk user),
           timestamp := some (String.mk ts),
           request := some (String.mk request),
           status := some (String.mk status),
           size := some (String.mk size),
           referer := some (String.mk referer),
           user_agent := some (String.mk ua),
           extra := extra }))))))))))))))))))))))))))

/-- `PATTERNS[3]`, the simple space-delimited format (lines 57-62). -/
def matchSimple (line : String) : Option AccessGroups :=
  Re.plus Re.nonWs line.data (fun ip r1 =>
  Re.plus pyWs r1 (fun _ r2 =>
  Re.star Re.dot r2 (fun _ r3 =>
  Re.lit '[' r3 (fun r4 =>
  Re.plus (fun c => c != ']') r4 (fun ts r5 =>
  Re.lit ']' r5 (fun r6 =>
  Re.plus pyWs r6 (fun _ r7 =>
  Re.lit '"' r7 (fun r8 =>
  Re.plus (fun c => c != '"') r8 (fun request r9 =>
  Re.lit '"' r9 (fun r10 =>
  Re.plus pyWs r10 (fun _ r11 =>
  Re.plus Char.isDigit r11 (fun status _ =>
    some { ip := some (String.mk ip), timestamp := some (String.mk ts),
           request := some (String.mk request),
           status := some (String.mk status) }))))))))))))

/-- `PATTERNS[4]`, the JSON-like format (lines 63-68). -/
def matchJsonish (line : String) : Option AccessGroups :=
  Re.lit (Char.ofNat 123) line.data (fun r1 =>
  Re.star (fun c => c != Char.ofNat 125) r1 (fun _ r2 =>
  Re.lit '"' r2 (fun r3 =>
  Re.alts ["ip", "remote_addr", "client_ip"] r3 (fun _ r4 =>
  Re.lit '"' r4 (fun r5 =>
  Re.lit ':' r5 (fun r6 =>
  Re.star pyWs r6 (fun _ r7 =>
  Re.lit '"' r7 (fun r8 =>
  Re.plus (fun c => c != '"') r8 (fun ip r9 =>
  Re.lit '"' r9 (fun r10 =>
  Re.star Re.dot r10 (fun _ r11 =>
  Re.lit '"' r11 (fun r12 =>
  Re.alts ["timestamp", "time", "@timestamp"] r12 (fun _ r13 =>
  Re.lit '"' r13 (fun r14 =>
  Re.lit ':' r14 (fun r15 =>
  Re.star pyWs r15 (fun _ r16 =>
  Re.lit '"' r16 (fun r17 =>
  Re.plus (fun c => c != '"') r17 (fun ts r18 =>
  Re.lit '"' r18 (fun r19 =>
  Re.star Re.dot r19 (fun _ r20 =>
  Re.lit '"' r20 (fun r21 =>
  Re.alts ["status", "status_code", "response_code"] r21 (fun _ r22 =>
  Re.lit '"' r22 (fun r23 =>
  Re.lit ':' r23 (fun r24 =>
  Re.star pyWs r24 (fun _ r25 =>
  Re.plus Char.isDigit r25 (fun status _ =>
    some { ip := some (String.mk ip), timestamp := some (String.mk ts),
           status := some (String.mk status) }))))))))))))))))))))))))))

/-- The ordered pattern list `AccessLogParser.PATTERNS`. -/
inductive Pat where
  | combined
  | common
  | nginx
  | simple
  | jsonish
deriving DecidableEq

def matchPat : Pat → String → Option AccessGroups
  | Pat.combined => matchCombined
  | Pat.common => matchCommon
  | Pat.nginx => matchNginx
  | Pat.simple => matchSimple
  | Pat.jsonish => matchJsonish

def PATTERNS : List Pat :=
  [Pat.combined, Pat.common, Pat.nginx, Pat.simple, Pat.jsonish]

/-- The apostrophe character (the third SQL-injection signature is a
bare apostrophe). -/
def aposChar : Char := Char.ofNat 39

/-- Scan an input for a pattern matcher (`re.search`): try every start
position, including the empty tail. -/
def reSearch (m : List Char → Option Unit) : List Char → Bool
  | [] => (m []).isSome
  | c :: rest => (m (c :: rest)).isSome || reSearch m rest

/-- `or\s+'1'\s*=\s*'1` with `re.IGNORECASE`, at one position. -/
def or1At (cs : List Char) : Option Unit :=
  Re.altsCI ["or"] cs (fun _ r1 =>
  Re.plus pyWs r1 (fun _ r2 =>
  Re.lit aposChar r2 (fun r3 =>
  Re.lit '1' r3 (fun r4 =>
  Re.lit aposChar r4 (fun r5 =>
  Re.star pyWs r5 (fun _ r6 =>
  Re.lit '=' r6 (fun r7 =>
  Re.star pyWs r7 (fun _ r8 =>
  Re.lit aposChar r8 (fun r9 =>
  Re.lit '1' r9 (fun _ => some ()))))))))))

/-- `union\s+select` with `re.IGNORECASE`, at one position. -/
def unionSelectAt (cs : List Char) : Option Unit :=
  Re.altsCI ["union"] cs (fun _ r1 =>
  Re.plus pyWs r1 (fun _ r2 =>
  Re.altsCI ["select"] r2 (fun _ _ => some ())))

/-- Case-insensitive substring search (a literal pattern under
`re.IGNORECASE`). -/
def substrCI (needle hay : String) : Bool :=
  substrOf needle (pyStrLower hay)

/-- `AccessLogParser._attack_patterns_compiled` (lines 95-107), in
order; each entry pairs a compiled-regex search on the path with the
resulting event type.  Patterns without letters are case-independent
and use a plain substring search. -/
def attackPatterns : List ((String → Bool) × String) :=
  [(fun p => substrOf "../" p, "PATH_TRAVERSAL_ATTEMPT"),
   (fun p => substrCI "etc/passwd" p, "PATH_TRAVERSAL_ATTEMPT"),
   (fun p => substrOf (String.mk [aposChar]) p, "SQL_INJECTION_ATTEMPT"),
   (fun p => reSearch or1At (pyStrLower p).data, "SQL_INJECTION_ATTEMPT"),
   (fun p => reSearch unionSelectAt (pyStrLower p).data,
    "SQL_INJECTION_ATTEMPT"),
   (fun p => substrOf "--" p, "SQL_INJECTION_ATTEMPT"),
   (fun p => substrCI "<script" p, "XSS_ATTEMPT"),
   (fun p => substrCI "javascript:" p, "XSS_ATTEMPT"),
   (fun p => substrCI "cmd=" p, "COMMAND_INJECTION_ATTEMPT"),
   (fun p => substrCI "exec(" p, "COMMAND_INJECTION_ATTEMPT"),
   (fun p => substrCI ".php?" p, "PHP_INJECTION_ATTEMPT")]

/-- `self._scanner_pattern` (line 110): an alternation of literal
scanner names, so search is any-of-contains. -/
def scannerSearch (ua : String) : Bool :=
  ["sqlmap", "nikto", "nmap", "masscan", "burp", "zap", "acunetix",
   "nessus"].any (fun t => substrCI t ua)

/-- `self._auth_paths_pattern` (line 111):
`/(login|signin|auth|authenticate|session)`. -/
def authPathsSearch (p : String) : Bool :=
  ["/login", "/signin", "/auth", "/authenticate", "/session"].any
    (fun t => substrCI t p)

/-- `self._admin_paths_pattern` (line 112): `/(admin|dashboard)`. -/
def adminPathsSearch (p : String) : Bool :=
  ["/admin", "/dashboard"].any (fun t => substrCI t p)

/-- `self._file_extensions_pattern` (line 113):
`\.(pdf|xlsx|doc|csv|zip|tar|gz)$`. -/
def fileExtSearch (p : String) : Bool :=
  [".pdf", ".xlsx", ".doc", ".csv", ".zip", ".tar", ".gz"].any
    (fun t => t.data.isSuffixOf (pyStrLower p).data)

/-- `self._user_modification_pattern` (line 114):
`/(user|account|profile)`. -/
def userModSearch (p : String) : Bool :=
  ["/user", "/account", "/profile"].any (fun t => substrCI t p)

/-- `AccessLogParser._determine_event_type` (lines 519-576): the
priority cascade — attack signatures first, then scanner user agents,
then auth paths with status, then status buckets, then method buckets,
then defaults. -/
def determine_event_type (method path : String) (status : Nat)
    (user_agent : String) : String :=
  if path = "" ∧ method = "" ∧ user_agent = "" then "LOG_ENTRY"
  else
    match attackPatterns.find? (fun pr => pr.1 path) with
    | some pr => pr.2
    | none =>
      if user_agent ≠ "" ∧ scannerSearch user_agent then "SCANNER_DETECTED"
      else if path ≠ "" ∧ authPathsSearch path ∧
          (status = 401 ∨ status = 403) then "LOGIN_FAILURE"
      else if path ≠ "" ∧ authPathsSearch path ∧ status = 200 ∧
          method = "POST" then "LOGIN_SUCCESS"
      else if status = 403 then "ACCESS_DENIED"
      else if status = 401 then "UNAUTHORIZED"
      else if path ≠ "" ∧ adminPathsSearch path then "ADMIN_ACCESS"
      else if method = "DELETE" then "DELETE_OPERATION"
      else if (method = "POST" ∨ method = "PUT" ∨ method = "PATCH") ∧
          path ≠ "" ∧ userModSearch path then "USER_MODIFICATION"
      else if path ≠ "" ∧ fileExtSearch path then "FILE_ACCESS"
      else if 500 ≤ status then "SERVER_ERROR"
      else if 400 ≤ status then "CLIENT_ERROR"
      else if method ≠ "" ∨ status ≠ 0 then "WEB_ACCESS"
      else "LOG_ENTRY"

/-- `AccessLogParser.TIMESTAMP_PATTERNS` (lines 72-81). -/
def TIMESTAMP_PATTERNS : List String :=
  ["%d/%b/%Y:%H:%M:%S %z", "%d/%b/%Y:%H:%M:%S", "%Y-%m-%dT%H:%M:%S.%fZ",
   "%Y-%m-%dT%H:%M:%SZ", "%Y-%m-%d %H:%M:%S", "%b %d %H:%M:%S",
   "%d-%b-%Y %H:%M:%S", "%Y/%m/%d %H:%M:%S"]

/-- Python `str.replace` (all occurrences). -/
def pyReplaceAux (old new : List Char) : Nat → List Char → List Char
  | 0, cs => cs
  | _ + 1, [] => []
  | fuel + 1, c :: rest =>
    if old ≠ [] ∧ old.isPrefixOf (c :: rest)
      then new ++ pyReplaceAux old new fuel ((c :: rest).drop old.length)
      else c :: pyReplaceAux old new fuel rest

def pyReplace (s old new : String) : String :=
  String.mk (pyReplaceAux old.data new.data s.data.length s.data)

/-- Python `s.rsplit(' ', 1)[0]`: everything before the last space (the
code only calls it when a space is present). -/
def rsplitSpaceHead (s : String) : String :=
  if s.data.contains ' '
    then String.mk (((s.data.reverse.dropWhile (· ≠ ' ')).drop 1).reverse)
    else s

/-- `AccessLogParser._parse_timestamp`, lines 491-517: the all-formats
loop (with the `' +'/' -'` timezone suffix stripped before parsing),
then the dateutil fallback, then `timezone.now()`. -/
def aptsLoopFallback (timestamp_str : String) (now : PyDateTime) :
    Except String PyDateTime :=
  let ts_clean :=
    if substrOf " +" timestamp_str ∨ substrOf " -" timestamp_str
      then rsplitSpaceHead timestamp_str else timestamp_str
  match TIMESTAMP_PATTERNS.findSome?
      (fun fmt => strptime (pyReplace fmt " %z" "") ts_clean) with
  | some dt => Except.ok (makeAwareIfNaive dt)
  | none =>
    match dateutilParse timestamp_str with
    | some dt => Except.ok (makeAwareIfNaive dt)
    | none => Except.ok (djangoNow now)

/-- `AccessLogParser._parse_timestamp` (lines 471-517): the detected
format first (where `timestamp_str.split()[0]` can raise `IndexError`
on an all-whitespace value — only `ValueError` is caught), then the
all-formats loop and fallbacks of `aptsLoopFallback`; every returned
datetime is made UTC-aware.  No format string contains a literal `+`,
so `'+' not in fmt` is always true, and the `' %z'` directive is always
removed before `strptime`. -/
def access_parse_timestamp (dfmt : Option String) (timestamp_str : String)
    (now : PyDateTime) : Except String PyDateTime :=
  if timestamp_str = "" then Except.ok (djangoNow now)
  else
    let loopFallback : Except String PyDateTime :=
      aptsLoopFallback timestamp_str now
    match dfmt with
    | none => loopFallback
    | some f =>
      if substrOf " " timestamp_str ∧ ¬ substrOf "+" f then
        match (pySplitWs timestamp_str).head? with
        | none => Except.error "IndexError"
        | some tok =>
          match strptime (pyReplace f " %z" "") tok with
          | some dt => Except.ok (makeAwareIfNaive dt)
          | none => loopFallback
      else
        match strptime (pyReplace f " %z" "") timestamp_str with
        | some dt => Except.ok (makeAwareIfNaive dt)
        | none => loopFallback

/-- The timestamp-format loop of `_detect_format` (lines 195-203):
first format that parses the sampled timestamp, where a timestamp with
a space is truncated to its first token (`split()[0]` raising
`IndexError` on an all-whitespace value). -/
def detectTsFmt (ts_str : String) : List String →
    Except String (Option String)
  | [] => Except.ok none
  | fmt :: rest =>
    match (if substrOf " " ts_str ∧ ¬ substrOf "+" fmt then
        match (pySplitWs ts_str).head? with
        | none => Except.error "IndexError"
        | some tok => Except.ok tok
      else Except.ok ts_str) with
    | Except.error e => Except.error e
    | Except.ok tok =>
      match strptime (pyReplace fmt " %z" "") tok with
      | some _ => Except.ok (some fmt)
      | none => detectTsFmt ts_str rest

/-- `AccessLogParser._detect_format` (lines 171-204): sample the first
10 lines (comment lines skipped, others stripped); pick the first
pattern matching at least half the sample; from the first sample line
that pattern matches with a nonempty timestamp group, pick the first
format that parses its (possibly space-truncated) timestamp.  The
`split()[0]` on an all-whitespace timestamp group raises `IndexError`,
which nothing in `parse` catches. -/
def detect_format (lines : List String) :
    Except String (Option Pat × Option String) :=
  let sample := (lines.take 10).filterMap
    (fun l => if pyStartsWith "#" l then none else some (pyStrip l))
  if sample.isEmpty then Except.ok (none, none)
  else
    let detected := PATTERNS.find?
      (fun p => sample.length ≤ 2 * sample.countP
        (fun l => (matchPat p l).isSome))
    match detected with
    | none => Except.ok (none, none)
    | some p =>
      match sample.findSome? (fun l =>
          match matchPat p l with
          | some g =>
            match g.timestamp with
            | some ts => if ts ≠ "" then some ts else none
            | none => none
          | none => none) with
      | none => Except.ok (some p, none)
      | some ts_str =>
        match detectTsFmt ts_str TIMESTAMP_PATTERNS with
        | Except.error e => Except.error e
        | Except.ok r => Except.ok (some p, r)

/-- A single character of a class, passing the matched character to the
continuation. -/
def Re.cls (p : Char → Bool) (cs : List Char)
    (cont : Char → List Char → Option a) : Option a :=
  match cs with
  | [] => none
  | c :: rest => if p c then cont c rest else none

/-- Hexadecimal digit (`[0-9a-fA-F]`). -/
def isHexChar (c : Char) : Bool :=
  c.isDigit || ('a' ≤ c ∧ c ≤ 'f') || ('A' ≤ c ∧ c ≤ 'F')

/-- IPv4 alternative of the flexible-parse IP regex (line 316):
`\d{1,3}\.\d{1,3}\.\d{1,3}\.\d{1,3}` at one position, returning the
matched text. -/
def ipv4At (cs : List Char) : Option String :=
  Re.rep Char.isDigit 1 3 cs (fun a r1 =>
  Re.lit '.' r1 (fun r2 =>
  Re.rep Char.isDigit 1 3 r2 (fun b r3 =>
  Re.lit '.' r3 (fun r4 =>
  Re.rep Char.isDigit 1 3 r4 (fun c r5 =>
  Re.lit '.' r5 (fun r6 =>
  Re.rep Char.isDigit 1 3 r6 (fun d _ =>
  some (String.mk (a ++ ['.'] ++ b ++ ['.'] ++ c ++ ['.'] ++ d)))))))))

/-- IPv6 alternative `(?:[0-9a-fA-F]{1,4}:){7}[0-9a-fA-F]{1,4}` at one
position. -/
def ipv6At (cs : List Char) : Option String :=
  Re.rep isHexChar 1 4 cs (fun h1 r1 =>
  Re.lit ':' r1 (fun r2 =>
  Re.rep isHexChar 1 4 r2 (fun h2 r3 =>
  Re.lit ':' r3 (fun r4 =>
  Re.rep isHexChar 1 4 r4 (fun h3 r5 =>
  Re.lit ':' r5 (fun r6 =>
  Re.rep isHexChar 1 4 r6 (fun h4 r7 =>
  Re.lit ':' r7 (fun r8 =>
  Re.rep isHexChar 1 4 r8 (fun h5 r9 =>
  Re.lit ':' r9 (fun r10 =>
  Re.rep isHexChar 1 4 r10 (fun h6 r11 =>
  Re.lit ':' r11 (fun r12 =>
  Re.rep isHexChar 1 4 r12 (fun h7 r13 =>
  Re.lit ':' r13 (fun r14 =>
  Re.rep isHexChar 1 4 r14 (fun h8 _ =>
  some (String.mk (h1 ++ [':'] ++ h2 ++ [':'] ++ h3 ++ [':'] ++ h4 ++
    [':'] ++ h5 ++ [':'] ++ h6 ++ [':'] ++ h7 ++ [':'] ++ h8)))))))))))))))))

/-- `re.search` scan of the flexible-parse IP regex (IPv4 alternative
first at each position). -/
def flexIpScan : List Char → Option String
  | [] => none
  | c :: rest =>
    match ipv4At (c :: rest) with
    | some m => some m
    | none =>
      match ipv6At (c :: rest) with
      | some m => some m
      | none => flexIpScan rest

/-- `re.search` of `[\[\(]([^\]\)]+)[\]\)]` (line 321), returning the
bracketed content. -/
def bracketSearch : List Char → Option String
  | [] => none
  | c :: rest =>
    if c = '[' ∨ c = '(' then
      let inner := rest.takeWhile (fun d => d ≠ ']' ∧ d ≠ ')')
      let closerOk :=
        match rest.drop inner.length with
        | d :: _ => d = ']' || d = ')'
        | [] => false
      if inner ≠ [] ∧ closerOk = true then some (String.mk inner)
      else bracketSearch rest
    else bracketSearch rest

/-- One position of the timestamp-ish test (line 325):
`\d{1,4}[:/\-]\d{1,2}[:/\-]\d{1,4}|\d{2}:\d{2}:\d{2}`. -/
def tsIshAt (cs : List Char) : Option Unit :=
  match Re.rep Char.isDigit 1 4 cs (fun _ r1 =>
      Re.cls (fun c => c = ':' ∨ c = '/' ∨ c = '-') r1 (fun _ r2 =>
      Re.rep Char.isDigit 1 2 r2 (fun _ r3 =>
      Re.cls (fun c => c = ':' ∨ c = '/' ∨ c = '-') r3 (fun _ r4 =>
      Re.rep Char.isDigit 1 4 r4 (fun _ _ => some ()))))) with
  | some u => some u
  | none =>
    Re.rep Char.isDigit 2 2 cs (fun _ r1 =>
    Re.lit ':' r1 (fun r2 =>
    Re.rep Char.isDigit 2 2 r2 (fun _ r3 =>
    Re.lit ':' r3 (fun r4 =>
    Re.rep Char.isDigit 2 2 r4 (fun _ _ => some ())))))

def tsIshSearch (s : String) : Bool := reSearch tsIshAt s.data

/-- Optional fraction `(?:\.\d+)?`, greedy. -/
def optFrac (cs : List Char)
    (k : List Char → List Char → Option a) : Option a :=
  match Re.lit '.' cs (fun r1 =>
      Re.plus Char.isDigit r1 (fun ds r2 => k ('.' :: ds) r2)) with
  | some v => some v
  | none => k [] cs

/-- Optional timezone `(?:Z|[+-]\d{2}:?\d{2})?`, greedy, `Z` first. -/
def optTz (cs : List Char)
    (k : List Char → List Char → Option a) : Option a :=
  match Re.lit 'Z' cs (fun r => k ['Z'] r) with
  | some v => some v
  | none =>
    match Re.cls (fun c => c = '+' ∨ c = '-') cs (fun sg r1 =>
        Re.rep Char.isDigit 2 2 r1 (fun d1 r2 =>
        match Re.lit ':' r2 (fun r3 =>
            Re.rep Char.isDigit 2 2 r3 (fun d2 r4 =>
            k (sg :: d1 ++ [':'] ++ d2) r4)) with
        | some v => some v
        | none =>
          Re.rep Char.isDigit 2 2 r2 (fun d2 r4 =>
            k (sg :: d1 ++ d2) r4))) with
    | some v => some v
    | none => k [] cs

/-- One position of the ISO-8601 search (line 329):
`\d{4}-\d{2}-\d{2}[T\s]\d{2}:\d{2}:\d{2}(?:\.\d+)?(?:Z|[+-]\d{2}:?\d{2})?`,
returning the matched text. -/
def isoAt (cs : List Char) : Option String :=
  Re.rep Char.isDigit 4 4 cs (fun y r1 =>
  Re.lit '-' r1 (fun r2 =>
  Re.rep Char.isDigit 2 2 r2 (fun mo r3 =>
  Re.lit '-' r3 (fun r4 =>
  Re.rep Char.isDigit 2 2 r4 (fun d r5 =>
  Re.cls (fun c => c = 'T' ∨ pyWs c) r5 (fun sep r6 =>
  Re.rep Char.isDigit 2 2 r6 (fun h r7 =>
  Re.lit ':' r7 (fun r8 =>
  Re.rep Char.isDigit 2 2 r8 (fun mi r9 =>
  Re.lit ':' r9 (fun r10 =>
  Re.rep Char.isDigit 2 2 r10 (fun ss r11 =>
  optFrac r11 (fun frac r12 =>
  optTz r12 (fun tz _ =>
  some (String.mk (y ++ ['-'] ++ mo ++ ['-'] ++ d ++ [sep] ++ h ++
    [':'] ++ mi ++ [':'] ++ ss ++ frac ++ tz)))))))))))))))

def isoSearch : List Char → Option String
  | [] => none
  | c :: rest =>
    match isoAt (c :: rest) with
    | some m => some m
    | none => isoSearch rest

/-- One position of the HTTP method/path search (line 334):
`"?(GET|POST|PUT|DELETE|HEAD|OPTIONS|PATCH|CONNECT|TRACE)\s+([^"\s]+)`
with `re.IGNORECASE`; returns the (lowercased) method alternative and
the path. -/
def httpMethodAt (cs : List Char) : Option (String × String) :=
  let inner := fun (cs2 : List Char) =>
    Re.altsCI ["get", "post", "put", "delete", "head", "options",
        "patch", "connect", "trace"] cs2 (fun m r1 =>
      Re.plus pyWs r1 (fun _ r2 =>
      Re.plus (fun c => c != '"' && !pyWs c) r2 (fun p _ =>
      some (m, String.mk p))))
  match (match cs with
    | '"' :: r => inner r
    | _ => none) with
  | some v => some v
  | none => inner cs

def httpMethodSearch : List Char → Option (String × String)
  | [] => none
  | c :: rest =>
    match httpMethodAt (c :: rest) with
    | some v => some v
    | none => httpMethodSearch rest

/-- One position of the status-code search (line 341):
`["\s](\d{3})[\s"]`. -/
def statusAt (cs : List Char) : Option Nat :=
  Re.cls (fun c => c = '"' ∨ pyWs c) cs (fun _ r1 =>
  Re.rep Char.isDigit 3 3 r1 (fun ds r2 =>
  Re.cls (fun c => pyWs c ∨ c = '"') r2 (fun _ _ =>
  some (digitsVal ds))))

def statusSearch : List Char → Option Nat
  | [] => none
  | c :: rest =>
    match statusAt (c :: rest) with
    | some v => some v
    | none => statusSearch rest

/-- Python `str.isdigit` (ASCII). -/
def pyIsDigit (s : String) : Bool := s ≠ "" && s.data.all Char.isDigit

/-- The value alternative `("[^"]*"|\S+)` of the `key=value` findall
(line 349): a quoted token (kept with its quotes, as `re` returns the
matched text) or a maximal non-whitespace run. -/
def kvValueAt (cs : List Char) : Option (String × List Char) :=
  match (match cs with
    | '"' :: r1 =>
      let inner := r1.takeWhile (· ≠ '"')
      match r1.drop inner.length with
      | '"' :: r2 => some (String.mk ('"' :: (inner ++ ['"'])), r2)
      | _ => none
    | _ => none) with
  | some v => some v
  | none =>
    let tok := cs.takeWhile Re.nonWs
    if tok.isEmpty then none else some (String.mk tok, cs.drop tok.length)

/-- `re.findall(r'(\w+)=("[^"]*"|\S+)', line)` (line 349):
non-overlapping left-to-right matches. -/
def kvEqFindAux : Nat → List Char → List (String × String)
  | 0, _ => []
  | _ + 1, [] => []
  | fuel + 1, c :: rest =>
    let w := (c :: rest).takeWhile pyWordChar
    if w ≠ [] then
      match (c :: rest).drop w.length with
      | '=' :: r2 =>
        match kvValueAt r2 with
        | some (v, r3) => (String.mk w, v) :: kvEqFindAux fuel r3
        | none => kvEqFindAux fuel rest
      | _ => kvEqFindAux fuel rest
    else kvEqFindAux fuel rest

def kvEqFindall (s : String) : List (String × String) :=
  kvEqFindAux s.data.length s.data

/-- The value alternative `("[^"]*"|[^,\s]+)` of the `key: value`
findall (line 350). -/
def kvColonValueAt (cs : List Char) : Option (String × List Char) :=
  match (match cs with
    | '"' :: r1 =>
      let inner := r1.takeWhile (· ≠ '"')
      match r1.drop inner.length with
      | '"' :: r2 => some (String.mk ('"' :: (inner ++ ['"'])), r2)
      | _ => none
    | _ => none) with
  | some v => some v
  | none =>
    let tok := cs.takeWhile (fun c => c != ',' && !pyWs c)
    if tok.isEmpty then none else some (String.mk tok, cs.drop tok.length)

/-- `re.findall(r'(\w+):\s*("[^"]*"|[^,\s]+)', line)` (line 350). -/
def kvColonFindAux : Nat → List Char → List (String × String)
  | 0, _ => []
  | _ + 1, [] => []
  | fuel + 1, c :: rest =>
    let w := (c :: rest).takeWhile pyWordChar
    if w ≠ [] then
      match (c :: rest).drop w.length with
      | ':' :: r2 =>
        match kvColonValueAt (r2.dropWhile pyWs) with
        | some (v, r3) => (String.mk w, v) :: kvColonFindAux fuel r3
        | none => kvColonFindAux fuel rest
      | _ => kvColonFindAux fuel rest
    else kvColonFindAux fuel rest

def kvColonFindall (s : String) : List (String × String) :=
  kvColonFindAux s.data.length s.data

/-- `re.findall(r'"([^"]+)"', line)` (line 382): non-overlapping quoted
strings. -/
def quotedFindAux : Nat → List Char → List String
  | 0, _ => []
  | _ + 1, [] => []
  | fuel + 1, c :: rest =>
    if c = '"' then
      let inner := rest.takeWhile (· ≠ '"')
      if inner ≠ [] then
        match rest.drop inner.length with
        | '"' :: r2 => String.mk inner :: quotedFindAux fuel r2
        | _ => quotedFindAux fuel rest
      else quotedFindAux fuel rest
    else quotedFindAux fuel rest

def quotedFindall (s : String) : List String :=
  quotedFindAux s.data.length s.data

/-- The `extracted` working dict of `_flexible_parse` (lines 300-313),
with the dynamically added `severity`/`source` keys (lines 377-379). -/
structure FlexState where
  timestamp : PyDateTime
  user : String
  host : String
  event_type : String
  raw_message : String
  method : String
  path : String
  status_code : Nat
  user_agent : String
  referer : String
  is_web_log : Bool
  severity : Option String
  source : Option String
deriving DecidableEq

/-- The timestamp branch of the key/value loop (line 373):
`extracted['timestamp'] = self._parse_timestamp(value)`. -/
def applyKvTs (dfmt : Option String) (now : PyDateTime) (st : FlexState)
    (value : String) : Except String FlexState :=
  match access_parse_timestamp dfmt value now with
  | Except.error e => Except.error e
  | Except.ok dt => Except.ok { st with timestamp := dt }

/-- One iteration of the key/value mapping loop of `_flexible_parse`
(lines 353-379); `kvStripped` is the loop body's
`value = value.strip('"\'')` local. -/
def kvStripped (kv : String × String) : String :=
  pyStripChars ['"', aposChar] kv.2

def applyKv (dfmt : Option String) (now : PyDateTime) (st : FlexState)
    (kv : String × String) : Except String FlexState :=
  if pyStrLower kv.1 ∈ ["user", "username", "user_id", "userid", "uid"] then
    Except.ok { st with user := kvStripped kv }
  else if pyStrLower kv.1 ∈ ["ip", "client_ip", "remote_addr", "src_ip",
      "source_ip", "clientip"] then
    Except.ok { st with host := kvStripped kv }
  else if pyStrLower kv.1 ∈ ["status", "status_code", "response_code",
      "statuscode"] then
    Except.ok { st with
      status_code := if pyIsDigit (kvStripped kv)
        then digitsVal (kvStripped kv).data else 0,
      is_web_log := true }
  else if pyStrLower kv.1 ∈ ["method", "http_method", "request_method"] then
    Except.ok { st with
      method := pyStrUpper (kvStripped kv), is_web_log := true }
  else if pyStrLower kv.1 ∈ ["path", "uri", "url", "request_uri",
      "endpoint"] then
    Except.ok { st with path := kvStripped kv, is_web_log := true }
  else if pyStrLower kv.1 ∈ ["time", "timestamp", "datetime", "@timestamp",
      "event_time"] then
    applyKvTs dfmt now st (kvStripped kv)
  else if pyStrLower kv.1 ∈ ["message", "msg", "log_message"] then
    Except.ok { st with raw_message := kvStripped kv }
  else if pyStrLower kv.1 ∈ ["level", "severity", "priority"] then
    Except.ok { st with severity := some (kvStripped kv) }
  else if pyStrLower kv.1 ∈ ["source", "logger", "component", "service"] then
    Except.ok { st with source := some (kvStripped kv) }
  else Except.ok st

def applyKvs (dfmt : Option String) (now : PyDateTime) :
    FlexState → List (String × String) → Except String FlexState
  | st, [] => Except.ok st
  | st, kv :: rest =>
    match applyKv dfmt now st kv with
    | Except.error e => Except.error e
    | Except.ok st2 => applyKvs dfmt now st2 rest

/-- `_flexible_parse` lines 300-313: the initial `extracted` dict. -/
def flexInit (line : String) (now : PyDateTime) : FlexState :=
  { timestamp := djangoNow now, user := "", host := "",
    event_type := "LOG_ENTRY", raw_message := line, method := "",
    path := "", status_code := 0, user_agent := "", referer := "",
    is_web_log := false, severity := none, source := none }

/-- `_flexible_parse` step 1 (lines 315-318): IP extraction. -/
def flexIpStep (line : String) (st : FlexState) : FlexState :=
  match flexIpScan line.data with
  | some ip => { st with host := ip }
  | none => st

/-- `_flexible_parse` step 2 (lines 320-331): bracketed timestamp (when
it looks like a timestamp), else ISO-8601 search. -/
def flexTsStep (dfmt : Option String) (line : String) (now : PyDateTime)
    (st : FlexState) : Except String FlexState :=
  match bracketSearch line.data with
  | some ts_str =>
    if tsIshSearch ts_str then
      match access_parse_timestamp dfmt ts_str now with
      | Except.error e => Except.error e
      | Except.ok dt => Except.ok { st with timestamp := dt }
    else Except.ok st
  | none =>
    match isoSearch line.data with
    | some iso =>
      match access_parse_timestamp dfmt iso now with
      | Except.error e => Except.error e
      | Except.ok dt => Except.ok { st with timestamp := dt }
    | none => Except.ok st

/-- `_flexible_parse` step 3 (lines 333-338): HTTP method and path. -/
def flexMethodStep (line : String) (st : FlexState) : FlexState :=
  match httpMethodSearch line.data with
  | some (m, p) =>
    { st with method := pyStrUpper m, path := p, is_web_log := true }
  | none => st

/-- `_flexible_parse` step 4 (lines 340-344): status code. -/
def flexStatusStep (line : String) (st : FlexState) : FlexState :=
  match statusSearch line.data with
  | some v => { st with status_code := v, is_web_log := true }
  | none => st

/-- `_flexible_parse` step 6 (lines 381-388): last two quoted strings
as referer and user agent. -/
def flexQuotedStep (line : String) (st : FlexState) : FlexState :=
  let qs := quotedFindall line
  let st6 :=
    if 2 ≤ qs.length then
      let r := qs.getD (qs.length - 2) ""
      { st with referer := if r ≠ "-" then r else "" }
    else st
  if 1 ≤ qs.length then
    let u := qs.getD (qs.length - 1) ""
    { st6 with user_agent := if u ≠ "-" then u else "" }
  else st6

/-- `_flexible_parse` step 7 (lines 390-410): event type from the web
fields or from the severity. -/
def flexEventTypeStep (st : FlexState) : FlexState :=
  if st.is_web_log then
    { st with event_type :=
        (determine_event_type st.method st.path st.status_code
          st.user_agent) }
  else
    let sev := pyStrUpper (st.severity.getD "")
    { st with event_type :=
        if sev ∈ ["ERROR", "FATAL", "CRITICAL"] then "ERROR"
        else if sev ∈ ["WARNING", "WARN"] then "WARNING"
        else if sev ∈ ["INFO", "INFORMATION"] then "INFO"
        else if sev ∈ ["DEBUG", "TRACE"] then "DEBUG"
        else "LOG_ENTRY" }

/-- `_flexible_parse` final assembly (lines 412-447): web raw-message
parts, `extra_data`, and the returned event dict. -/
def flexBuild (line_num : Nat) (st : FlexState) : NormalizedEvent :=
  let webParts : List String × List (String × ExtraVal) :=
    if st.is_web_log then
      let a :=
        if st.method ≠ "" ∧ st.path ≠ "" then
          ([st.method ++ " " ++ st.path],
           [("method", ExtraVal.s st.method),
            ("path", ExtraVal.s st.path)])
        else ([], [])
      let b :=
        if st.status_code ≠ 0 then
          (a.1 ++ ["Status:" ++ natToStr st.status_code],
           a.2 ++ [("status_code", ExtraVal.n st.status_code)])
        else a
      let c :=
        if st.user_agent ≠ "" ∧ st.user_agent ≠ "-" then
          (b.1 ++ ["UA:" ++ String.mk (st.user_agent.data.take 50)],
           b.2 ++ [("user_agent", ExtraVal.s st.user_agent)])
        else b
      if st.referer ≠ "" ∧ st.referer ≠ "-" then
        (c.1 ++ ["Ref:" ++ String.mk (st.referer.data.take 50)],
         c.2 ++ [("referer", ExtraVal.s st.referer)])
      else c
    else ([], [])
  let raw_message :=
    if st.is_web_log ∧ webParts.1 ≠ []
      then joinSep " | " webParts.1 else st.raw_message
  let extra1 := match st.severity with
    | some sv => if sv ≠ "" then webParts.2 ++ [("severity", ExtraVal.s sv)]
                 else webParts.2
    | none => webParts.2
  let extra2 := match st.source with
    | some sv => if sv ≠ "" then extra1 ++ [("source", ExtraVal.s sv)]
                 else extra1
    | none => extra1
  { timestamp := st.timestamp, user := st.user, host := st.host,
    event_type := st.event_type, raw_message := raw_message,
    line_number := line_num, extra_data := extra2 }

/-- `AccessLogParser._flexible_parse` (lines 295-447): the extraction
steps applied in source order to the initial `extracted` dict; a
timestamp extraction can raise `IndexError` inside `_parse_timestamp`
(propagated). -/
def flexible_parse (dfmt : Option String) (line : String)
    (line_num : Nat) (now : PyDateTime) : Except String NormalizedEvent :=
  match flexTsStep dfmt line now (flexIpStep line (flexInit line now)) with
  | Except.error e => Except.error e
  | Except.ok st2 =>
    match applyKvs dfmt now (flexStatusStep line (flexMethodStep line st2))
        (kvEqFindall line ++ kvColonFindall line) with
    | Except.error e => Except.error e
    | Except.ok st5 =>
      Except.ok (flexBuild line_num (flexEventTypeStep
        (flexQuotedStep line st5)))

/-- `AccessLogParser._build_event_from_match` (lines 226-293).  After
the nginx-style request splitting and the pure field extraction
(whose results the dict literals would consume), building `extra_data`
evaluates the bare name `protocol` — no local of that name is ever
bound (only the regex group `groups['protocol']` exists) — so the
function unconditionally raises `NameError` before the event dict is
assembled; `_parse_timestamp` is never reached.  The `user_agent`
handed to `_determine_event_type` may be `None` for an unparticipating
optional group, which that function maps to `''` (line 525); the model
collapses the two at the call site. -/
def build_event_from_match (g : AccessGroups) (line_num : Nat) :
    Except String NormalizedEvent :=
  let g2 := match g.request with
    | some req =>
      if req ≠ "" then
        let parts := pySplitWs req
        if 2 ≤ parts.length then
          { g with method := some (parts.getD 0 ""),
                   path := some (parts.getD 1 ""),
                   protocol := some
                     (if 2 < parts.length then parts.getD 2 "" else "") }
        else g
      else g
    | none => g
  let user0 := g2.user.getD "-"
  let _user := if user0 = "-" then "" else user0
  let method := g2.method.getD "GET"
  let path := g2.path.getD "/"
  let statusStr := g2.status.getD ""
  let status := if pyIsDigit statusStr then digitsVal statusStr.data else 0
  let ua := g2.user_agent.getD ""
  let _event_type := determine_event_type method path status ua
  Except.error "NameError: name protocol is not defined"

/-- `AccessLogParser._parse_line` (lines 206-224): the detected pattern
first, then the remaining patterns; on the first match build the event
(which raises `NameError`), else fall back to flexible extraction. -/
def parse_line (detected : Option Pat) (dfmt : Option String)
    (line : String) (line_num : Nat) (now : PyDateTime) :
    Except String NormalizedEvent :=
  let patterns_to_try :=
    (match detected with | some p => [p] | none => []) ++
      PATTERNS.filter (fun p => detected ≠ some p)
  match patterns_to_try.findSome? (fun p => matchPat p line) with
  | some g => build_event_from_match g line_num
  | none => flexible_parse dfmt line line_num now

/-- `AccessLogParser.parse` (lines 116-150): detect the format from the
sample, then per line strip, skip blanks and `#` comments, parse, skip
per-line failures, collect validated events.  (The >100MB streaming
variant runs the identical per-line loop.)  An `IndexError` escaping
`_detect_format` aborts the whole parse. -/
def accessLogParse (lines : List String) (now : PyDateTime) :
    Except String (List NormalizedEvent) :=
  match detect_format lines with
  | Except.error e => Except.error e
  | Except.ok (detected, dfmt) =>
    Except.ok (lines.enum.filterMap (fun pr =>
      let line := pyStrip pr.2
      if line = "" ∨ pyStartsWith "#" line then none
      else
        match parse_line detected dfmt line (pr.1 + 1) now with
        | Except.error _ => none
        | Except.ok event =>
          if validate_event event then some event else none))

/-! ## Theorems -/

/-- The keyword fold of `_score_keywords` never drops below its
accumulator. -/
theorem kwfold_ge_acc (m : String) (l : List (String × ℚ)) (acc : ℚ) :
    acc ≤ l.foldl
      (fun acc p => if substrOf p.1 m then max acc p.2 else acc) acc := by
  induction l generalizing acc with
  | nil => simp
  | cons p rest ih =>
    simp only [List.foldl_cons]
    refine le_trans ?_ (ih _)
    split
    · exact le_max_left _ _
    · exact le_rfl

/-- Every matched table entry bounds the keyword fold from below. -/
theorem kwfold_mem_le (m : String) (l : List (String × ℚ)) (acc : ℚ)
    (p : String × ℚ) (hp : p ∈ l) (hs : substrOf p.1 m = true) :
    p.2 ≤ l.foldl
      (fun acc p => if substrOf p.1 m then max acc p.2 else acc) acc := by
  induction l generalizing acc with
  | nil => cases hp
  | cons q rest ih =>
    simp only [List.foldl_cons]
    rcases List.mem_cons.mp hp with h | h
    · subst h
      refine le_trans ?_ (kwfold_ge_acc m rest _)
      simp [hs]
    · exact ih _ h

/-- The keyword fold either returns its accumulator or the weight of
some matched entry. -/
theorem kwfold_cases (m : String) (l : List (String × ℚ)) (acc : ℚ) :
    l.foldl (fun acc p => if substrOf p.1 m then max acc p.2 else acc) acc
      = acc ∨
    ∃ p ∈ l, substrOf p.1 m = true ∧
      l.foldl (fun acc p => if substrOf p.1 m then max acc p.2 else acc) acc
        = p.2 := by
  induction l generalizing acc with
  | nil => exact Or.inl rfl
  | cons q rest ih =>
    simp only [List.foldl_cons]
    by_cases hq : substrOf q.1 m = true
    · rw [if_pos hq]
      rcases ih (max acc q.2) with h | ⟨p, hp, hps, hval⟩
      · rcases max_cases acc q.2 with ⟨hm, _⟩ | ⟨hm, _⟩
        · exact Or.inl (h.trans hm)
        · exact Or.inr ⟨q, List.mem_cons_self .., hq, h.trans hm⟩
      · exact Or.inr ⟨p, List.mem_cons_of_mem _ hp, hps, hval⟩
    · rw [if_neg hq]
      rcases ih acc with h | ⟨p, hp, hps, hval⟩
      · exact Or.inl h
      · exact Or.inr ⟨p, List.mem_cons_of_mem _ hp, hps, hval⟩

/-- `_score_event_type` on a string value succeeds and returns at least
the 0.1 base score (all table entries are ≥ 0.1, all down-weighted
keyword weights are ≥ 0.16). -/
theorem score_event_type_ok_bound (v : FieldVal) (q : ℚ)
    (h : MLScorer.score_event_type v = Except.ok q) : 1/10 ≤ q := by
  cases v with
  | str s =>
    simp only [MLScorer.score_event_type, pyLower, Except.bind, bind,
      pure, Except.pure] at h
    split at h
    · rename_i p hf
      cases h
      have hm := List.mem_of_find?_eq_some hf
      have hall : ∀ p ∈ MLScorer.EVENT_TYPE_SCORES, 1/10 ≤ p.2 := by
        intro p hp
        fin_cases hp <;> norm_num
      exact hall p hm
    · rename_i hf
      split at h
      · rename_i p hg
        cases h
        have hm := List.mem_of_find?_eq_some hg
        have hall : ∀ p ∈ MLScorer.RISK_KEYWORDS, 1/10 ≤ p.2 * (8/10) := by
          intro p hp
          fin_cases hp <;> norm_num
        exact hall p hm
      · rename_i hg
        cases h
        exact le_rfl
  | absent => simp [MLScorer.score_event_type, pyLower, Except.bind, bind] at h
  | pynone => simp [MLScorer.score_event_type, pyLower, Except.bind, bind] at h
  | dt d => simp [MLScorer.score_event_type, pyLower, Except.bind, bind] at h

/-- `_score_keywords` on a string value returns a nonnegative score. -/
theorem score_keywords_ok_nonneg (v : FieldVal) (q : ℚ)
    (h : MLScorer.score_keywords v = Except.ok q) : 0 ≤ q := by
  cases v with
  | str s =>
    simp only [MLScorer.score_keywords, pyLower, Except.bind, bind,
      pure, Except.pure, Except.ok.injEq] at h
    exact h ▸ kwfold_ge_acc _ _ _
  | absent => simp [MLScorer.score_keywords, pyLower, Except.bind, bind] at h
  | pynone => simp [MLScorer.score_keywords, pyLower, Except.bind, bind] at h
  | dt d => simp [MLScorer.score_keywords, pyLower, Except.bind, bind] at h

/-- `_score_user` returns either 0 or the flat 0.3 bonus. -/
theorem score_user_ok_cases (v : FieldVal) (q : ℚ)
    (h : MLScorer.score_user v = Except.ok q) : q = 0 ∨ q = 3/10 := by
  cases v with
  | str s =>
    simp only [MLScorer.score_user, pyLower, Except.bind, bind,
      pure, Except.pure, Except.ok.injEq] at h
    split at h
    · exact Or.inr h.symm
    · exact Or.inl h.symm
  | absent => simp [MLScorer.score_user, pyLower, Except.bind, bind] at h
  | pynone => simp [MLScorer.score_user, pyLower, Except.bind, bind] at h
  | dt d => simp [MLScorer.score_user, pyLower, Except.bind, bind] at h

/-- `_score_temporal` returns either 0 or the flat 0.1 bonus. -/
theorem score_temporal_cases (v : FieldVal) :
    MLScorer.score_temporal v = 0 ∨ MLScorer.score_temporal v = 1/10 := by
  cases v with
  | dt d =>
    simp only [MLScorer.score_temporal]
    split
    · exact Or.inr rfl
    · exact Or.inl rfl
  | absent => exact Or.inl rfl
  | pynone => exact Or.inl rfl
  | str s => exact Or.inl rfl

theorem score_event_type_str (s : String) :
    MLScorer.score_event_type (FieldVal.str s) = Except.ok (etValue s) := by
  simp only [MLScorer.score_event_type, pyLower, bind, Except.bind, pure,
    Except.pure, etValue]
  split
  · rfl
  · split <;> rfl

theorem score_keywords_str (s : String) :
    MLScorer.score_keywords (FieldVal.str s) = Except.ok (kwValue s) := by
  simp only [MLScorer.score_keywords, pyLower, bind, Except.bind, pure,
    Except.pure, kwValue]

theorem score_user_str (s : String) :
    MLScorer.score_user (FieldVal.str s) = Except.ok (userValue s) := by
  simp only [MLScorer.score_user, pyLower, bind, Except.bind, pure,
    Except.pure, userValue]

/-- `score_event` on string-valued mandatory fields, written through the
helper values. -/
theorem score_event_eq (ed : EventData) (et rm u0 : String)
    (h1 : ed.event_type = FieldVal.str et)
    (h2 : ed.raw_message = FieldVal.str rm)
    (h3 : dictGet ed.user (FieldVal.str "") = FieldVal.str u0) :
    MLScorer.score_event ed =
      Except.ok
        (min (etValue et + kwValue rm + userValue u0 +
           MLScorer.score_temporal (dictGet ed.timestamp FieldVal.pynone)) 1,
         MLScorer.assign_risk_label
           (min (etValue et + kwValue rm + userValue u0 +
              MLScorer.score_temporal (dictGet ed.timestamp FieldVal.pynone)) 1),
         [("event_type", etValue et), ("keywords", kwValue rm),
          ("user", userValue u0),
          ("temporal",
            MLScorer.score_temporal (dictGet ed.timestamp FieldVal.pynone))]) := by
  unfold MLScorer.score_event
  rw [h1, h2, h3]
  simp only [dictGetItem, score_event_type_str, score_keywords_str,
    score_user_str, bind, Except.bind, pure, Except.pure]

/-- C1: for every event record whose `event_type` and `raw_message` are
strings (and whose optional `user` is absent or a string, so that the
scorer's `.get('user', '')` yields a string `u0`), `score_event` returns
exactly the four named feature scores; the event-type score defaults to
0.1 when no table entry matches; the keyword score is the maximum (not
the sum) of the matched risk-keyword weights (0 when nothing matches);
the user score is a flat 0.3 exactly when a high-privilege marker occurs
in the user string; the temporal score is a flat 0.1 exactly when the
timestamp is a datetime with hour ≥ 22 or < 6; the confidence is the
clamped sum `min(sum, 1.0)`, always in [0, 1], and the feature scores
sum to at least the confidence. -/
theorem c1_score_event_four_feature_sum (ed : EventData) (et rm u0 : String)
    (h1 : ed.event_type = FieldVal.str et)
    (h2 : ed.raw_message = FieldVal.str rm)
    (h3 : dictGet ed.user (FieldVal.str "") = FieldVal.str u0) :
    ∃ e k u t : ℚ,
      MLScorer.score_event ed =
        Except.ok (min (e + k + u + t) 1,
          MLScorer.assign_risk_label (min (e + k + u + t) 1),
          [("event_type", e), ("keywords", k), ("user", u),
           ("temporal", t)]) ∧
      ((∀ p ∈ MLScorer.EVENT_TYPE_SCORES, substrOf p.1 (pyStrLower et) = false) →
        (∀ p ∈ MLScorer.RISK_KEYWORDS, substrOf p.1 (pyStrLower et) = false) →
        e = 1/10) ∧
      (∀ p ∈ MLScorer.RISK_KEYWORDS,
        substrOf p.1 (pyStrLower rm) = true → p.2 ≤ k) ∧
      (k = 0 ∨ ∃ p ∈ MLScorer.RISK_KEYWORDS,
        substrOf p.1 (pyStrLower rm) = true ∧ k = p.2) ∧
      (u = if MLScorer.high_priv_users.any
            (fun priv => substrOf priv (pyStrLower u0)) then 3/10 else 0) ∧
      (∀ d, dictGet ed.timestamp FieldVal.pynone = FieldVal.dt d →
        t = if 22 ≤ d.hour ∨ d.hour < 6 then 1/10 else 0) ∧
      ((∀ d, dictGet ed.timestamp FieldVal.pynone ≠ FieldVal.dt d) → t = 0) ∧
      0 ≤ min (e + k + u + t) 1 ∧ min (e + k + u + t) 1 ≤ 1 ∧
      min (e + k + u + t) 1 ≤ e + k + u + t := by
  refine ⟨etValue et, kwValue rm, userValue u0,
    MLScorer.score_temporal (dictGet ed.timestamp FieldVal.pynone),
    score_event_eq ed et rm u0 h1 h2 h3, ?_, ?_, ?_, ?_, ?_, ?_, ?_, ?_, ?_⟩
  · intro h4 h5
    unfold etValue
    rw [List.find?_eq_none.mpr (fun p hp => by simp [h4 p hp]),
      List.find?_eq_none.mpr (fun p hp => by simp [h5 p hp])]
  · intro p hp hps
    exact kwfold_mem_le (pyStrLower rm) _ _ p hp hps
  · exact kwfold_cases (pyStrLower rm) _ _
  · rfl
  · intro d hd
    simp [MLScorer.score_temporal, hd]
  · intro hnd
    cases hv : dictGet ed.timestamp FieldVal.pynone with
    | dt d => exact absurd hv (hnd d)
    | absent => simp [MLScorer.score_temporal, hv]
    | pynone => simp [MLScorer.score_temporal, hv]
    | str s => simp [MLScorer.score_temporal, hv]
  · refine le_min ?_ (by norm_num)
    have he : (0:ℚ) ≤ etValue et :=
      le_trans (by norm_num) (score_event_type_ok_bound _ _ (score_event_type_str et))
    have hk : (0:ℚ) ≤ kwValue rm := kwfold_ge_acc _ _ _
    have hu : (0:ℚ) ≤ userValue u0 := by
      unfold userValue; split <;> norm_num
    have ht : (0:ℚ) ≤ MLScorer.score_temporal
        (dictGet ed.timestamp FieldVal.pynone) := by
      rcases score_temporal_cases (dictGet ed.timestamp FieldVal.pynone) with
        h | h <;> rw [h] <;> norm_num
    linarith
  · exact min_le_right _ _
  · exact min_le_left _ _

/-- C1 witness: the theorem applied to the event with every field an
empty string; its confidence 0.1 lies in [0, 1]. -/
theorem c1_score_event_four_feature_sum_witness :
    ∃ e k u t : ℚ,
      MLScorer.score_event
        { event_type := FieldVal.str "", raw_message := FieldVal.str "",
          user := FieldVal.str "", host := FieldVal.str "",
          timestamp := FieldVal.str "" } =
        Except.ok (min (e + k + u + t) 1,
          MLScorer.assign_risk_label (min (e + k + u + t) 1),
          [("event_type", e), ("keywords", k), ("user", u),
           ("temporal", t)]) ∧
      ((∀ p ∈ MLScorer.EVENT_TYPE_SCORES, substrOf p.1 (pyStrLower "") = false) →
        (∀ p ∈ MLScorer.RISK_KEYWORDS, substrOf p.1 (pyStrLower "") = false) →
        e = 1/10) ∧
      (∀ p ∈ MLScorer.RISK_KEYWORDS,
        substrOf p.1 (pyStrLower "") = true → p.2 ≤ k) ∧
      (k = 0 ∨ ∃ p ∈ MLScorer.RISK_KEYWORDS,
        substrOf p.1 (pyStrLower "") = true ∧ k = p.2) ∧
      (u = if MLScorer.high_priv_users.any
            (fun priv => substrOf priv (pyStrLower "")) then 3/10 else 0) ∧
      (∀ d, dictGet (FieldVal.str "") FieldVal.pynone = FieldVal.dt d →
        t = if 22 ≤ d.hour ∨ d.hour < 6 then 1/10 else 0) ∧
      ((∀ d, dictGet (FieldVal.str "") FieldVal.pynone ≠ FieldVal.dt d) →
        t = 0) ∧
      0 ≤ min (e + k + u + t) 1 ∧ min (e + k + u + t) 1 ≤ 1 ∧
      min (e + k + u + t) 1 ≤ e + k + u + t :=
  c1_score_event_four_feature_sum
    { event_type := FieldVal.str "", raw_message := FieldVal.str "",
      user := FieldVal.str "", host := FieldVal.str "",
      timestamp := FieldVal.str "" } "" "" "" rfl rfl rfl

/-- C2: the risk label is a deterministic function of confidence with
inclusive lower bounds: ≥ 0.8 CRITICAL, [0.6, 0.8) HIGH, [0.3, 0.6)
MEDIUM, below 0.3 LOW. -/
theorem c2_assign_risk_label_thresholds (c : ℚ) :
    (8/10 ≤ c → MLScorer.assign_risk_label c = "CRITICAL") ∧
    (6/10 ≤ c → c < 8/10 → MLScorer.assign_risk_label c = "HIGH") ∧
    (3/10 ≤ c → c < 6/10 → MLScorer.assign_risk_label c = "MEDIUM") ∧
    (c < 3/10 → MLScorer.assign_risk_label c = "LOW") := by
  unfold MLScorer.assign_risk_label
  refine ⟨?_, ?_, ?_, ?_⟩ <;> intros <;> split_ifs <;>
    first
    | rfl
    | linarith

/-- C2 witness: boundary-exact instances, including exactly 0.8, 0.6
and 0.3, plus values just below the thresholds. -/
theorem c2_assign_risk_label_thresholds_witness :
    MLScorer.assign_risk_label (8/10) = "CRITICAL" ∧
    MLScorer.assign_risk_label (79999/100000) = "HIGH" ∧
    MLScorer.assign_risk_label (6/10) = "HIGH" ∧
    MLScorer.assign_risk_label (59999/100000) = "MEDIUM" ∧
    MLScorer.assign_risk_label (3/10) = "MEDIUM" ∧
    MLScorer.assign_risk_label (29999/100000) = "LOW" :=
  ⟨(c2_assign_risk_label_thresholds (8/10)).1 (by norm_num),
   (c2_assign_risk_label_thresholds (79999/100000)).2.1 (by norm_num)
     (by norm_num),
   (c2_assign_risk_label_thresholds (6/10)).2.1 (by norm_num) (by norm_num),
   (c2_assign_risk_label_thresholds (59999/100000)).2.2.1 (by norm_num)
     (by norm_num),
   (c2_assign_risk_label_thresholds (3/10)).2.2.1 (by norm_num) (by norm_num),
   (c2_assign_risk_label_thresholds (29999/100000)).2.2.2 (by norm_num)⟩

/-- C5 (refuting the claim as stated): `score_event` does tolerate
absent `user`, `host` and `timestamp` keys, but a record whose `user`
key is present with value `None` raises `AttributeError` inside
`_score_user` (`event_data.get('user', '')` returns `None`, and
`None.lower()` fails), while a record missing `event_type` raises
`KeyError` as the claim says. -/
theorem c5_scorer_user_none_attribute_error :
    MLScorer.score_event
      { event_type := FieldVal.str "login", raw_message := FieldVal.str "x",
        user := FieldVal.pynone, host := FieldVal.absent,
        timestamp := FieldVal.absent } =
      Except.error "AttributeError: lower" ∧
    (MLScorer.score_event
      { event_type := FieldVal.str "login", raw_message := FieldVal.str "x",
        user := FieldVal.absent, host := FieldVal.absent,
        timestamp := FieldVal.absent }).isOk = true ∧
    MLScorer.score_event
      { event_type := FieldVal.absent, raw_message := FieldVal.str "x",
        user := FieldVal.absent, host := FieldVal.absent,
        timestamp := FieldVal.absent } = Except.error "KeyError" := by
  refine ⟨?_, ?_, ?_⟩ <;>
    simp only [MLScorer.score_event, dictGetItem, dictGet,
      score_event_type_str, score_keywords_str, score_user_str,
      MLScorer.score_user, pyLower, bind, Except.bind, pure, Except.pure,
      Except.isOk, Except.toBool]

/-- Inversion for `Except` bind: a successful bind comes from a
successful first step. -/
theorem except_bind_ok_iff {a b e : Type} (x : Except e a)
    (f : a → Except e b) (r : b) :
    (x >>= f = Except.ok r) ↔ ∃ v, x = Except.ok v ∧ f v = Except.ok r := by
  cases x <;> simp [Bind.bind, Except.bind]

/-- C10: whenever `score_event` succeeds, the confidence is at least the
0.1 base score contributed by the event-type signal, and the label is
computed from that confidence. -/
theorem c10_confidence_at_least_base (ed : EventData) (c : ℚ) (l : String)
    (fs : List (String × ℚ))
    (h : MLScorer.score_event ed = Except.ok (c, l, fs)) :
    1/10 ≤ c ∧ l = MLScorer.assign_risk_label c := by
  unfold MLScorer.score_event at h
  rw [except_bind_ok_iff] at h
  obtain ⟨et, -, h⟩ := h
  rw [except_bind_ok_iff] at h
  obtain ⟨eq, h2, h⟩ := h
  rw [except_bind_ok_iff] at h
  obtain ⟨rm, -, h⟩ := h
  rw [except_bind_ok_iff] at h
  obtain ⟨kq, h4, h⟩ := h
  rw [except_bind_ok_iff] at h
  obtain ⟨uq, h5, h⟩ := h
  simp only [pure, Except.pure, Except.ok.injEq, Prod.mk.injEq] at h
  obtain ⟨hc, hl, -⟩ := h
  subst hc
  constructor
  · have he := score_event_type_ok_bound et eq h2
    have hk := score_keywords_ok_nonneg rm kq h4
    have hu : (0:ℚ) ≤ uq := by
      rcases score_user_ok_cases _ uq h5 with h | h <;> rw [h] <;> norm_num
    have ht : (0:ℚ) ≤ MLScorer.score_temporal
        (dictGet ed.timestamp FieldVal.pynone) := by
      rcases score_temporal_cases
          (dictGet ed.timestamp FieldVal.pynone) with h | h <;>
        rw [h] <;> norm_num
    refine le_min (by linarith) (by norm_num)
  · exact hl.symm

/-- When no table entry matches, the keyword fold returns its
accumulator. -/
theorem kwfold_none (m : String) (l : List (String × ℚ)) (acc : ℚ)
    (h : ∀ p ∈ l, substrOf p.1 m = false) :
    l.foldl (fun acc p => if substrOf p.1 m then max acc p.2 else acc) acc
      = acc := by
  induction l generalizing acc with
  | nil => rfl
  | cons q rest ih =>
    simp only [List.foldl_cons, h q (List.mem_cons_self ..),
      Bool.false_eq_true, if_false]
    exact ih acc (fun p hp => h p (List.mem_cons_of_mem _ hp))

/-- The empty-string event scores exactly 0.1 with label LOW. -/
theorem score_event_empty :
    MLScorer.score_event
      { event_type := FieldVal.str "", raw_message := FieldVal.str "",
        user := FieldVal.str "", host := FieldVal.str "",
        timestamp := FieldVal.str "" } =
      Except.ok (1/10, "LOW",
        [("event_type", 1/10), ("keywords", 0), ("user", 0),
         ("temporal", 0)]) := by
  have he : etValue "" = 1/10 := by
    unfold etValue
    rw [show MLScorer.EVENT_TYPE_SCORES.find?
          (fun p => substrOf p.1 (pyStrLower "")) = none by decide,
        show MLScorer.RISK_KEYWORDS.find?
          (fun p => substrOf p.1 (pyStrLower "")) = none by decide]
  have hk : kwValue "" = 0 := kwfold_none _ _ _ (by decide)
  have hu : userValue "" = 0 := by
    unfold userValue
    rw [show (MLScorer.high_priv_users.any
          (fun priv => substrOf priv (pyStrLower ""))) = false by decide]
    simp
  rw [score_event_eq
      { event_type := FieldVal.str "", raw_message := FieldVal.str "",
        user := FieldVal.str "", host := FieldVal.str "",
        timestamp := FieldVal.str "" } "" "" "" rfl rfl rfl,
    he, hk, hu]
  have hsum : (1:ℚ)/10 + 0 + 0 +
      MLScorer.score_temporal (dictGet (FieldVal.str "") FieldVal.pynone)
      = 1/10 := by
    simp [dictGet, MLScorer.score_temporal]
  rw [hsum, min_eq_left (by norm_num : (1:ℚ)/10 ≤ 1)]
  have hlab : MLScorer.assign_risk_label (1/10) = "LOW" := by
    unfold MLScorer.assign_risk_label
    rw [if_neg (by norm_num), if_neg (by norm_num), if_neg (by norm_num)]
  rw [hlab]
  simp [dictGet, MLScorer.score_temporal]

/-- C10 witness: the event with every field an empty string scores
exactly 0.1 with label LOW, and the theorem applies to it. -/
theorem c10_confidence_at_least_base_witness :
    MLScorer.score_event
      { event_type := FieldVal.str "", raw_message := FieldVal.str "",
        user := FieldVal.str "", host := FieldVal.str "",
        timestamp := FieldVal.str "" } =
      Except.ok (1/10, "LOW",
        [("event_type", 1/10), ("keywords", 0), ("user", 0),
         ("temporal", 0)]) ∧
    (1:ℚ)/10 ≤ 1/10 ∧ "LOW" = MLScorer.assign_risk_label (1/10) :=
  ⟨score_event_empty,
   c10_confidence_at_least_base
    { event_type := FieldVal.str "", raw_message := FieldVal.str "",
      user := FieldVal.str "", host := FieldVal.str "",
      timestamp := FieldVal.str "" } (1/10) "LOW"
    [("event_type", 1/10), ("keywords", 0), ("user", 0), ("temporal", 0)]
    score_event_empty⟩

/-- Looking up the key just stored finds the stored class. -/
theorem registryGet_registrySet_same (r : Registry) (k : String)
    (v : PyClass) : registryGet (registrySet r k v) k = some v := by
  unfold registrySet registryGet
  split
  · rename_i hany
    induction r with
    | nil => simp at hany
    | cons q rest ih =>
      simp only [List.any_cons, Bool.or_eq_true] at hany
      simp only [List.map_cons, List.find?]
      by_cases hq : q.1 = k
      · simp [hq]
      · rcases hany with h | h
        · exact absurd (of_decide_eq_true h) hq
        · simpa [hq] using ih h
  · rename_i hany
    induction r with
    | nil => simp [List.find?]
    | cons q rest ih =>
      simp only [List.any_cons, Bool.or_eq_true, not_or] at hany
      simp only [List.cons_append, List.find?]
      have hq : ¬ q.1 = k := fun h => hany.1 (by simp [h])
      simpa [hq] using ih hany.2

/-- A single-character substring test is membership. -/
theorem listInfix_singleton (c : Char) (l : List Char) :
    listInfix [c] l = true ↔ c ∈ l := by
  induction l with
  | nil => simp [listInfix]
  | cons d rest ih =>
    simp only [listInfix, List.isPrefixOf, Bool.or_eq_true, ih,
      List.mem_cons, Bool.and_eq_true, beq_iff_eq]
    constructor
    · rintro (⟨h, -⟩ | h)
      · exact Or.inl h
      · exact Or.inr h
    · rintro (h | h)
      · exact Or.inl ⟨h, by simp [List.isPrefixOf]⟩
      · exact Or.inr h

/-- C7: `detect_log_type` follows the priority cascade: extension
matches first (`.csv`, `.evtx`, `.json`, regardless of content); for
`.log`/`.txt` the access-log heuristic is tested before the syslog
heuristic; any file not classified by those falls back to CSV exactly
when the first line has at least two commas, else UNKNOWN; an
unreadable file (all heuristics `False`) yields only an
extension-determined tag or UNKNOWN, never an error. -/
theorem c7_detect_log_type_priority (ext : String) (line : Option String) :
    (pyStrLower ext = ".csv" → detect_log_type ext line = "CSV") ∧
    (pyStrLower ext = ".evtx" → detect_log_type ext line = "EVTX") ∧
    (pyStrLower ext = ".json" → detect_log_type ext line = "JSON") ∧
    ((pyStrLower ext = ".log" ∨ pyStrLower ext = ".txt") →
      is_access_log_format line = true →
      detect_log_type ext line = "ACCESS_LOG") ∧
    ((pyStrLower ext = ".log" ∨ pyStrLower ext = ".txt") →
      is_access_log_format line = false → is_syslog_format line = true →
      detect_log_type ext line = "SYSLOG") ∧
    ((pyStrLower ext = ".log" ∨ pyStrLower ext = ".txt") →
      is_access_log_format line = false → is_syslog_format line = false →
      detect_log_type ext line =
        if is_csv_format line then "CSV" else "UNKNOWN") ∧
    (pyStrLower ext ∉ [".csv", ".evtx", ".json", ".log", ".txt"] →
      detect_log_type ext line =
        if is_csv_format line then "CSV" else "UNKNOWN") ∧
    (∀ l, line = some l →
      (is_csv_format line = true ↔ 2 ≤ l.data.count ',')) ∧
    (line = none →
      detect_log_type ext line ∈ ["CSV", "EVTX", "JSON", "UNKNOWN"]) := by
  refine ⟨?_, ?_, ?_, ?_, ?_, ?_, ?_, ?_, ?_⟩
  · intro h; simp [detect_log_type, h]
  · intro h; simp [detect_log_type, h]
  · intro h; simp [detect_log_type, h]
  · intro hext hacc
    rcases hext with h | h <;> simp [detect_log_type, h, hacc]
  · intro hext hacc hsys
    rcases hext with h | h <;> simp [detect_log_type, h, hacc, hsys]
  · intro hext hacc hsys
    rcases hext with h | h <;> simp [detect_log_type, h, hacc, hsys]
  · intro hext
    simp only [List.mem_cons, not_or] at hext
    obtain ⟨h1, h2, h3, h4, h5⟩ := hext
    simp [detect_log_type, h1, h2, h3, h4, h5]
  · rintro l rfl
    simp only [is_csv_format, Bool.and_eq_true, decide_eq_true_eq]
    constructor
    · rintro ⟨-, h⟩; exact h
    · intro h
      refine ⟨?_, h⟩
      have hmem : ',' ∈ l.data := List.count_pos_iff.mp (by omega)
      exact (listInfix_singleton ',' l.data).mpr hmem
  · rintro rfl
    simp only [detect_log_type, is_access_log_format, is_syslog_format,
      is_csv_format, Bool.false_eq_true, if_false]
    split_ifs <;> simp

/-- C7 witness: the theorem applied to concrete inputs exercising the
access-before-syslog order, the CSV fallback and the unreadable-file
path. -/
theorem c7_detect_log_type_priority_witness :
    detect_log_type ".log"
      (some "10.0.0.1 - - [12/Jan/2026:10:00:00 +0000] \"GET /x HTTP/1.1\" 200 1")
      = "ACCESS_LOG" ∧
    detect_log_type ".txt" (some "<34> kernel: boot") = "SYSLOG" ∧
    detect_log_type ".xyz" (some "a,b,c") =
      (if is_csv_format (some "a,b,c") then "CSV" else "UNKNOWN") ∧
    detect_log_type ".json" (some "a,b,c") = "JSON" ∧
    detect_log_type ".csv" none ∈ ["CSV", "EVTX", "JSON", "UNKNOWN"] :=
  ⟨(c7_detect_log_type_priority ".log" _).2.2.2.1 (Or.inl (by decide))
     (by decide),
   (c7_detect_log_type_priority ".txt" _).2.2.2.2.1 (Or.inr (by decide))
     (by decide) (by decide),
   (c7_detect_log_type_priority ".xyz" _).2.2.2.2.2.2.1 (by decide),
   (c7_detect_log_type_priority ".json" _).2.2.1 (by decide),
   (c7_detect_log_type_priority ".csv" none).2.2.2.2.2.2.2.2 rfl⟩

/-- C6 counterexample: `detect_log_type` can return `ACCESS_LOG`, but
the factory registry contains only CSV and SYSLOG, so
`get_parser("ACCESS_LOG")` is `None` — the claim that every
non-UNKNOWN detectable tag has a parser is false. -/
theorem c6_counterexample_access_log_unregistered :
    detect_log_type ".log"
      (some "10.0.0.1 - - [12/Jan/2026:10:00:00 +0000] \"GET /i.html HTTP/1.1\" 200 512")
      = "ACCESS_LOG" ∧
    getParser initialParsers "ACCESS_LOG" = none ∧
    getParser initialParsers "JSON" = none ∧
    getParser initialParsers "EVTX" = none := by
  refine ⟨by decide, rfl, rfl, rfl⟩

/-- C6 (amended): `get_parser` returns an instance exactly for the
registered tags — initially only CSV and SYSLOG — and `None` for every
other tag including the detectable ACCESS_LOG, JSON and EVTX;
`register_parser` raises `ValueError` for a class that is not a
`BaseParser` subclass and otherwise extends the registry so that
`get_parser` for that tag returns an instance of the registered
class. -/
theorem c6_factory_registry_amended (t : String) (c : PyClass)
    (r : Registry) :
    getParser initialParsers "CSV" =
      some { name := "CSVParser", inheritsBaseParser := true } ∧
    getParser initialParsers "SYSLOG" =
      some { name := "SyslogParser", inheritsBaseParser := true } ∧
    (pyStrUpper t ≠ "CSV" → pyStrUpper t ≠ "SYSLOG" →
      getParser initialParsers t = none) ∧
    (c.inheritsBaseParser = false →
      registerParser r t c =
        Except.error "ValueError: Parser must inherit from BaseParser") ∧
    (c.inheritsBaseParser = true →
      registerParser r t c =
        Except.ok (registrySet r (pyStrUpper t) c) ∧
      getParser (registrySet r (pyStrUpper t) c) t = some c) := by
  refine ⟨rfl, rfl, ?_, ?_, ?_⟩
  · intro h1 h2
    have h1a : ¬ ("CSV" = pyStrUpper t) := fun h => h1 h.symm
    have h2a : ¬ ("SYSLOG" = pyStrUpper t) := fun h => h2 h.symm
    simp [getParser, registryGet, initialParsers, List.find?, h1a, h2a]
  · intro h
    simp [registerParser, h]
  · intro h
    refine ⟨by simp [registerParser, h], ?_⟩
    simp [getParser, registryGet_registrySet_same]

/-- C6 witness: registering an EVTX parser class makes `get_parser`
find it; a non-`BaseParser` class is rejected with `ValueError`; the
unregistered detectable tags look up to `None`. -/
theorem c6_factory_registry_amended_witness :
    getParser initialParsers "CSV" =
      some { name := "CSVParser", inheritsBaseParser := true } ∧
    getParser initialParsers "EVTX" = none ∧
    registerParser initialParsers "EVTX"
        { name := "EVTXParser", inheritsBaseParser := true } =
      Except.ok (registrySet initialParsers "EVTX"
        { name := "EVTXParser", inheritsBaseParser := true }) ∧
    getParser (registrySet initialParsers "EVTX"
        { name := "EVTXParser", inheritsBaseParser := true }) "EVTX" =
      some { name := "EVTXParser", inheritsBaseParser := true } ∧
    registerParser initialParsers "BAD"
        { name := "NotAParser", inheritsBaseParser := false } =
      Except.error "ValueError: Parser must inherit from BaseParser" :=
  ⟨(c6_factory_registry_amended "EVTX"
      { name := "EVTXParser", inheritsBaseParser := true }
      initialParsers).1,
   (c6_factory_registry_amended "EVTX"
      { name := "EVTXParser", inheritsBaseParser := true }
      initialParsers).2.2.1 (by decide) (by decide),
   (by simpa using ((c6_factory_registry_amended "EVTX"
      { name := "EVTXParser", inheritsBaseParser := true }
      initialParsers).2.2.2.2 rfl).1),
   (by simpa using ((c6_factory_registry_amended "EVTX"
      { name := "EVTXParser", inheritsBaseParser := true }
      initialParsers).2.2.2.2 rfl).2),
   (c6_factory_registry_amended "BAD"
      { name := "NotAParser", inheritsBaseParser := false }
      initialParsers).2.2.2.1 rfl⟩

/-- A confidence of at least 0.3 is labelled MEDIUM or higher. -/
theorem assign_risk_label_ge_medium (c : ℚ) (h : 3/10 ≤ c) :
    MLScorer.assign_risk_label c ∈
      (["MEDIUM", "HIGH", "CRITICAL"] : List String) := by
  unfold MLScorer.assign_risk_label
  split_ifs <;> simp_all

/-- C9: the CSV row `time,user,src_ip,action` /
`2026-01-12 10:00:00,admin,10.0.0.5,login failed` maps (for any ambient
clock, so the timestamp is parsed, not defaulted) to an event with
user `admin`, host `10.0.0.5`, event type `login failed` and the parsed
aware timestamp, and scoring that event yields confidence at least 0.3
and a label of MEDIUM or higher. -/
theorem c9_csv_end_to_end (now : PyDateTime) :
    ∃ ev,
      map_csv_row
        [("time", "2026-01-12 10:00:00"), ("user", "admin"),
         ("src_ip", "10.0.0.5"), ("action", "login failed")] 2 now =
        Except.ok ev ∧
      ev.user = "admin" ∧ ev.host = "10.0.0.5" ∧
      ev.event_type = "login failed" ∧
      ev.timestamp = { year := 2026, month := 1, day := 12, hour := 10,
                       minute := 0, second := 0, aware := true } ∧
      ∃ c l fs,
        MLScorer.score_event (eventDataOfEvent ev) = Except.ok (c, l, fs) ∧
        3/10 ≤ c ∧ l ∈ (["MEDIUM", "HIGH", "CRITICAL"] : List String) := by
  refine ⟨{ timestamp := { year := 2026, month := 1, day := 12, hour := 10,
                           minute := 0, second := 0, aware := true },
            user := "admin", host := "10.0.0.5",
            event_type := "login failed",
            raw_message := "time=2026-01-12 10:00:00 | user=admin | src_ip=10.0.0.5 | action=login failed",
            line_number := 2,
            extra_data :=
              [("time", ExtraVal.s "2026-01-12 10:00:00"),
               ("user", ExtraVal.s "admin"),
               ("src_ip", ExtraVal.s "10.0.0.5"),
               ("action", ExtraVal.s "login failed")] },
    rfl, rfl, rfl, rfl, rfl, ?_⟩
  have hs := score_event_eq
    (eventDataOfEvent
      { timestamp := { year := 2026, month := 1, day := 12, hour := 10,
                       minute := 0, second := 0, aware := true },
        user := "admin", host := "10.0.0.5",
        event_type := "login failed",
        raw_message := "time=2026-01-12 10:00:00 | user=admin | src_ip=10.0.0.5 | action=login failed",
        line_number := 2,
        extra_data :=
          [("time", ExtraVal.s "2026-01-12 10:00:00"),
           ("user", ExtraVal.s "admin"),
           ("src_ip", ExtraVal.s "10.0.0.5"),
           ("action", ExtraVal.s "login failed")] })
    "login failed"
    "time=2026-01-12 10:00:00 | user=admin | src_ip=10.0.0.5 | action=login failed"
    "admin" rfl rfl rfl
  have he : (0:ℚ) ≤ etValue "login failed" :=
    le_trans (by norm_num)
      (score_event_type_ok_bound _ _ (score_event_type_str _))
  have hk : (0:ℚ) ≤
      kwValue "time=2026-01-12 10:00:00 | user=admin | src_ip=10.0.0.5 | action=login failed" :=
    kwfold_ge_acc _ _ _
  have hu : userValue "admin" = 3/10 := by
    unfold userValue
    rw [if_pos (by decide)]
  have ht : MLScorer.score_temporal
      (dictGet (FieldVal.dt (PyDateTime.mk 2026 1 12 10 0 0 true))
        FieldVal.pynone) = 0 := by
    norm_num [dictGet, MLScorer.score_temporal]
  have hmin : (3:ℚ)/10 ≤
      (etValue "login failed" +
        kwValue "time=2026-01-12 10:00:00 | user=admin | src_ip=10.0.0.5 | action=login failed" +
        userValue "admin" +
        MLScorer.score_temporal
          (dictGet (FieldVal.dt (PyDateTime.mk 2026 1 12 10 0 0 true))
            FieldVal.pynone)) ⊓ 1 := by
    rw [hu, ht]
    refine le_min (by linarith) (by norm_num)
  exact ⟨_, _, _, hs, hmin, assign_risk_label_ge_medium _ hmin⟩

/-- C4 counterexample: a syslog line parses to an event whose timestamp
is a naive datetime (`strptime` result without tzinfo), refuting
"always a timezone-aware datetime" for the SyslogParser. -/
theorem c4_counterexample_syslog_naive_timestamp :
    syslogParse ["Jan 12 15:30:45 host1 sshd: Failed password for root"]
      { year := 2026, month := 10, day := 12, hour := 7, minute := 0,
        second := 0, aware := false } =
      [{ timestamp := { year := 2026, month := 1, day := 12, hour := 15,
                        minute := 30, second := 45, aware := false },
         user := "", host := "host1", event_type := "sshd",
         raw_message := "Failed password for root", line_number := 1,
         extra_data := [] }] ∧
    ({ year := 2026, month := 1, day := 12, hour := 15, minute := 30,
       second := 45, aware := false } : PyDateTime).aware = false :=
  ⟨by decide, rfl⟩

/-- C3 (code bug): the spec's scenario line matches the Combined Log
Format pattern, and `_determine_event_type` does classify
`GET /../etc/passwd` with status 403 as `PATH_TRAVERSAL_ATTEMPT`
(attack signatures before the 403 fallback) — but
`_build_event_from_match` unconditionally raises `NameError` (the
`extra_data` dict literal reads the never-bound local `protocol`), the
per-line handler swallows it, and `parse` returns no event at all for
this line, contradicting the claimed end-to-end behaviour. -/
theorem c3_path_traversal_name_error :
    (∀ now, accessLogParse
      ["10.0.0.1 - - [12/Jan/2026:10:00:00 +0000] \"GET /../etc/passwd HTTP/1.1\" 403 512"]
      now = Except.ok []) ∧
    (matchPat Pat.combined
      "10.0.0.1 - - [12/Jan/2026:10:00:00 +0000] \"GET /../etc/passwd HTTP/1.1\" 403 512").isSome
      = true ∧
    (∀ g n, build_event_from_match g n =
      Except.error "NameError: name protocol is not defined") ∧
    determine_event_type "GET" "/../etc/passwd" 403 "" =
      "PATH_TRAVERSAL_ATTEMPT" :=
  ⟨fun _ => rfl, rfl, fun _ _ => rfl, rfl⟩

/-- C8 counterexample: the single-line input `#` matches none of the
candidate grammars and contains no IP token, no timestamp-looking
substring, no HTTP method/status tokens and no key/value pairs, yet
`parse` yields zero events (comment lines are skipped), not exactly
one. -/
theorem c8_counterexample_comment_line :
    accessLogParse ["#"] (PyDateTime.mk 2026 10 12 7 0 0 false) =
      Except.ok [] ∧
    PATTERNS.all (fun p => (matchPat p "#").isNone) = true ∧
    flexIpScan "#".data = none ∧
    bracketSearch "#".data = none ∧
    isoSearch "#".data = none ∧
    httpMethodSearch "#".data = none ∧
    statusSearch "#".data = none ∧
    kvEqFindall "#" = [] ∧
    kvColonFindall "#" = [] := by
  refine ⟨rfl, rfl, rfl, rfl, rfl, rfl, rfl, rfl, rfl⟩

/-- Under the no-token hypotheses, the flexible fallback yields exactly
the minimal LOG_ENTRY event. -/
theorem flexible_parse_minimal (line : String) (n : Nat) (now : PyDateTime)
    (h4 : flexIpScan line.data = none)
    (h5 : bracketSearch line.data = none)
    (h6 : isoSearch line.data = none)
    (h7 : httpMethodSearch line.data = none)
    (h8 : statusSearch line.data = none)
    (h9 : kvEqFindall line = [])
    (h10 : kvColonFindall line = []) :
    flexible_parse none line n now =
      Except.ok { timestamp := djangoNow now, user := "", host := "",
                  event_type := "LOG_ENTRY", raw_message := line,
                  line_number := n, extra_data := [] } := by
  have hip : flexIpStep line (flexInit line now) = flexInit line now := by
    unfold flexIpStep; rw [h4]
  have hts : flexTsStep none line now (flexInit line now) =
      Except.ok (flexInit line now) := by
    unfold flexTsStep; rw [h5, h6]
  have hm : flexMethodStep line (flexInit line now) = flexInit line now := by
    unfold flexMethodStep; rw [h7]
  have hs : flexStatusStep line (flexInit line now) = flexInit line now := by
    unfold flexStatusStep; rw [h8]
  unfold flexible_parse
  rw [hip, hts]
  simp only [hm, hs, h9, h10, applyKvs, List.nil_append]
  by_cases hq2 : 2 ≤ (quotedFindall line).length <;>
    by_cases hq1 : 1 ≤ (quotedFindall line).length <;>
      simp only [flexQuotedStep, hq2, hq1, if_true, if_false, ite_true,
        ite_false, if_pos, if_neg] <;>
      rfl

/-- C8 (amended): for every single-line input equal to its own strip,
nonempty, not a `#` comment, matching none of the candidate grammars,
and containing no IP token, no timestamp-looking substring, no HTTP
method or status tokens and no key/value pairs, `parse` yields exactly
one event with `event_type = "LOG_ENTRY"`, `raw_message` the (stripped)
line, and the aware current time as its non-null timestamp — and never
raises. -/
theorem c8_flexible_fallback_minimal_event (line : String)
    (now : PyDateTime)
    (h0 : pyStrip line = line)
    (h1 : line ≠ "")
    (h2 : pyStartsWith "#" line = false)
    (h3 : ∀ p ∈ PATTERNS, matchPat p line = none)
    (h4 : flexIpScan line.data = none)
    (h5 : bracketSearch line.data = none)
    (h6 : isoSearch line.data = none)
    (h7 : httpMethodSearch line.data = none)
    (h8 : statusSearch line.data = none)
    (h9 : kvEqFindall line = [])
    (h10 : kvColonFindall line = []) :
    accessLogParse [line] now =
      Except.ok [{ timestamp := djangoNow now, user := "", host := "",
                   event_type := "LOG_ENTRY", raw_message := line,
                   line_number := 1, extra_data := [] }] ∧
    (djangoNow now).aware = true := by
  have hdet : detect_format [line] = Except.ok (none, none) := by
    unfold detect_format
    simp only [List.take, List.filterMap, h2, Bool.false_eq_true,
      if_false, h0, List.isEmpty_cons]
    rw [List.find?_eq_none.mpr]
    intro p hp
    have hcz : List.countP (fun l => (matchPat p l).isSome) [line] = 0 :=
      List.countP_eq_zero.mpr (by
        intro a ha
        simp only [List.mem_singleton] at ha
        subst ha
        simp [h3 p hp])
    simp [hcz]
  have hfs : List.findSome? (fun p => matchPat p line)
      (PATTERNS.filter (fun p => (none : Option Pat) ≠ some p)) = none := by
    rw [List.findSome?_eq_none_iff]
    intro p hp
    exact h3 p (List.mem_of_mem_filter hp)
  refine ⟨?_, rfl⟩
  unfold accessLogParse
  rw [hdet]
  simp only [List.enum, List.enumFrom, List.filterMap, h0]
  rw [if_neg (by simp [h1, h2])]
  unfold parse_line
  simp only [List.nil_append]
  rw [hfs, flexible_parse_minimal line (0 + 1) now h4 h5 h6 h7 h8 h9 h10]
  rfl

/-- C8 witness: the amended theorem applied to the line
`hello world`. -/
theorem c8_flexible_fallback_minimal_event_witness :
    accessLogParse ["hello world"] (PyDateTime.mk 2026 10 12 7 0 0 false) =
      Except.ok [{ timestamp := djangoNow (PyDateTime.mk 2026 10 12 7 0 0 false),
                   user := "", host := "", event_type := "LOG_ENTRY",
                   raw_message := "hello world", line_number := 1,
                   extra_data := [] }] ∧
    (djangoNow (PyDateTime.mk 2026 10 12 7 0 0 false)).aware = true :=
  c8_flexible_fallback_minimal_event "hello world"
    (PyDateTime.mk 2026 10 12 7 0 0 false)
    (by decide) (by decide) (by decide)
    (by intro p hp; fin_cases hp <;> rfl)
    rfl rfl rfl rfl rfl rfl rfl

/-- The all-formats fallback always succeeds with an aware datetime. -/
theorem aptsLoopFallback_ok_aware (ts : String) (now : PyDateTime) :
    ∃ d, aptsLoopFallback ts now = Except.ok d ∧ d.aware = true := by
  simp only [aptsLoopFallback]
  split
  · exact ⟨_, rfl, rfl⟩
  · split
    · exact ⟨_, rfl, rfl⟩
    · exact ⟨_, rfl, rfl⟩

/-- `_parse_timestamp` either raises or returns an aware datetime. -/
theorem access_parse_timestamp_cases (dfmt : Option String) (ts : String)
    (now : PyDateTime) :
    (∃ e, access_parse_timestamp dfmt ts now = Except.error e) ∨
    (∃ d, access_parse_timestamp dfmt ts now = Except.ok d ∧
      d.aware = true) := by
  obtain ⟨d0, hd0, ha0⟩ := aptsLoopFallback_ok_aware ts now
  unfold access_parse_timestamp
  split
  · exact Or.inr ⟨_, rfl, rfl⟩
  · split
    · exact Or.inr ⟨d0, hd0, ha0⟩
    · split
      · split
        · exact Or.inl ⟨_, rfl⟩
        · split
          · exact Or.inr ⟨_, rfl, rfl⟩
          · exact Or.inr ⟨d0, hd0, ha0⟩
      · split
        · exact Or.inr ⟨_, rfl, rfl⟩
        · exact Or.inr ⟨d0, hd0, ha0⟩

/-- Every datetime `_parse_timestamp` successfully returns is
UTC-aware. -/
theorem access_parse_timestamp_aware (dfmt : Option String)
    (ts : String) (now : PyDateTime) (dt : PyDateTime)
    (h : access_parse_timestamp dfmt ts now = Except.ok dt) :
    dt.aware = true := by
  rcases access_parse_timestamp_cases dfmt ts now with ⟨e, he⟩ | ⟨d, hd, ha⟩
  · rw [he] at h
    cases h
  · rw [hd] at h
    cases h
    exact ha

/-- The timestamp branch preserves awareness of the result. -/
theorem applyKvTs_aware (dfmt : Option String) (now : PyDateTime)
    (st : FlexState) (value : String) (st2 : FlexState)
    (h : applyKvTs dfmt now st value = Except.ok st2) :
    st2.timestamp.aware = true := by
  unfold applyKvTs at h
  split at h
  · cases h
  · rename_i dt hdt
    cases h
    exact access_parse_timestamp_aware _ _ _ _ hdt

/-- One key/value step preserves timestamp awareness. -/
theorem applyKv_aware (dfmt : Option String) (now : PyDateTime)
    (st : FlexState) (kv : String × String) (st2 : FlexState)
    (ha : st.timestamp.aware = true)
    (h : applyKv dfmt now st kv = Except.ok st2) :
    st2.timestamp.aware = true := by
  unfold applyKv at h
  repeat' split at h
  all_goals first
    | (cases h; exact ha)
    | (exact applyKvTs_aware _ _ _ _ _ h)
    | cases h

/-- The key/value fold preserves timestamp awareness. -/
theorem applyKvs_aware (dfmt : Option String) (now : PyDateTime)
    (l : List (String × String)) (st st2 : FlexState)
    (ha : st.timestamp.aware = true)
    (h : applyKvs dfmt now st l = Except.ok st2) :
    st2.timestamp.aware = true := by
  induction l generalizing st with
  | nil =>
    simp only [applyKvs] at h
    cases h
    exact ha
  | cons kv rest ih =>
    simp only [applyKvs] at h
    split at h
    · cases h
    · rename_i st3 hkv
      exact ih st3 (applyKv_aware dfmt now st kv st3 ha hkv) h

/-- The IP step does not touch the timestamp. -/
theorem flexIpStep_timestamp (line : String) (st : FlexState) :
    (flexIpStep line st).timestamp = st.timestamp := by
  unfold flexIpStep
  split <;> rfl

/-- The method step does not touch the timestamp. -/
theorem flexMethodStep_timestamp (line : String) (st : FlexState) :
    (flexMethodStep line st).timestamp = st.timestamp := by
  unfold flexMethodStep
  split <;> rfl

/-- The status step does not touch the timestamp. -/
theorem flexStatusStep_timestamp (line : String) (st : FlexState) :
    (flexStatusStep line st).timestamp = st.timestamp := by
  unfold flexStatusStep
  split <;> rfl

/-- The quoted-strings step does not touch the timestamp. -/
theorem flexQuotedStep_timestamp (line : String) (st : FlexState) :
    (flexQuotedStep line st).timestamp = st.timestamp := by
  simp only [flexQuotedStep]
  repeat' split
  all_goals rfl

/-- The event-type step does not touch the timestamp. -/
theorem flexEventTypeStep_timestamp (st : FlexState) :
    (flexEventTypeStep st).timestamp = st.timestamp := by
  simp only [flexEventTypeStep]
  split <;> rfl

/-- The built event carries the state's timestamp. -/
theorem flexBuild_timestamp (n : Nat) (st : FlexState) :
    (flexBuild n st).timestamp = st.timestamp := rfl

/-- The timestamp-extraction step preserves awareness. -/
theorem flexTsStep_aware (dfmt : Option String) (line : String)
    (now : PyDateTime) (st st2 : FlexState)
    (ha : st.timestamp.aware = true)
    (h : flexTsStep dfmt line now st = Except.ok st2) :
    st2.timestamp.aware = true := by
  unfold flexTsStep at h
  repeat' split at h
  all_goals first
    | (cases h; exact ha)
    | (cases h
       exact access_parse_timestamp_aware _ _ _ _ (by assumption))
    | cases h

/-- Every event `_flexible_parse` successfully returns has a
timezone-aware timestamp. -/
theorem flexible_parse_aware (dfmt : Option String) (line : String)
    (n : Nat) (now : PyDateTime) (ev : NormalizedEvent)
    (h : flexible_parse dfmt line n now = Except.ok ev) :
    ev.timestamp.aware = true := by
  unfold flexible_parse at h
  split at h
  · cases h
  · rename_i st2 hts
    split at h
    · cases h
    · rename_i st5 hkvs
      cases h
      have h2 : st2.timestamp.aware = true := by
        refine flexTsStep_aware dfmt line now _ st2 ?_ hts
        rw [flexIpStep_timestamp]
        rfl
      have h5 : st5.timestamp.aware = true := by
        refine applyKvs_aware dfmt now _ _ st5 ?_ hkvs
        rw [flexStatusStep_timestamp, flexMethodStep_timestamp]
        exact h2
      rw [flexBuild_timestamp, flexEventTypeStep_timestamp,
        flexQuotedStep_timestamp]
      exact h5

/-- `_build_event_from_match` always raises the `protocol`
NameError. -/
theorem build_event_from_match_error (g : AccessGroups) (n : Nat) :
    build_event_from_match g n =
      Except.error "NameError: name protocol is not defined" := rfl

/-- Every event `_parse_line` successfully returns has a timezone-aware
timestamp (only the flexible fallback can succeed). -/
theorem parse_line_aware (detected : Option Pat) (dfmt : Option String)
    (line : String) (n : Nat) (now : PyDateTime) (ev : NormalizedEvent)
    (h : parse_line detected dfmt line n now = Except.ok ev) :
    ev.timestamp.aware = true := by
  simp only [parse_line] at h
  split at h
  · rw [build_event_from_match_error] at h
    cases h
  · exact flexible_parse_aware _ _ _ _ _ h

/-- Every event `_map_csv_row` successfully returns has a
timezone-aware timestamp (`normalize_timestamp` attaches UTC to naive
results). -/
theorem map_csv_row_aware (row : List (String × String)) (n : Nat)
    (now : PyDateTime) (ev : NormalizedEvent)
    (h : map_csv_row row n now = Except.ok ev) :
    ev.timestamp.aware = true := by
  unfold map_csv_row at h
  split at h
  · cases h
  · cases h
    rfl

/-- Every event of a successful `AccessLogParser.parse` has a
timezone-aware timestamp. -/
theorem accessLogParse_aware (lines : List String) (now : PyDateTime)
    (evs : List NormalizedEvent)
    (h : accessLogParse lines now = Except.ok evs)
    (ev : NormalizedEvent) (hm : ev ∈ evs) :
    ev.timestamp.aware = true := by
  unfold accessLogParse at h
  split at h
  · cases h
  · cases h
    rw [List.mem_filterMap] at hm
    obtain ⟨pr, _, hf⟩ := hm
    dsimp only at hf
    split at hf
    · cases hf
    · split at hf
      · cases hf
      · rename_i event hpl
        split at hf
        · cases hf
          exact parse_line_aware _ _ _ _ _ _ hpl
        · cases hf

/-- Every datetime `strptime` returns is naive. -/
theorem strptime_naive (fmt s : String) (dt : PyDateTime)
    (h : strptime fmt s = some dt) : dt.aware = false := by
  unfold strptime at h
  rcases hr : strptimeRun fmt.data s.data TimeFields.empty with _ | f
  · rw [hr] at h
    cases h
  · rw [hr] at h
    injection h with h2
    rw [← h2]

/-- Every event `SyslogParser._parse_syslog_line` returns has a naive
timestamp: `strptime` results carry no tzinfo and the fallback is the
naive `datetime.utcnow()`. -/
theorem parse_syslog_line_naive (line : String) (n : Nat)
    (now : PyDateTime) :
    (parse_syslog_line line n now).timestamp.aware = false := by
  unfold parse_syslog_line
  split
  · show (parse_syslog_timestamp _ now).aware = false
    unfold parse_syslog_timestamp
    split
    · rename_i dt hdt
      exact strptime_naive _ _ _ hdt
    · rfl
  · rfl

/-- When the syslog timestamp text does not parse, the event timestamp
defaults to the current time (naive `utcnow`), without raising. -/
theorem parse_syslog_timestamp_default (ts : String) (now : PyDateTime)
    (h : strptime "%b %d %H:%M:%S %Y" (ts ++ " " ++ natToStr now.year)
      = none) :
    parse_syslog_timestamp ts now = pyUtcnow now := by
  unfold parse_syslog_timestamp
  rw [h]

/-- C4 (amended): timestamps of CSVParser and AccessLogParser events
are always timezone-aware (UTC is attached to naive parses), and an
unparseable value defaults to the current time rather than raising;
but every SyslogParser event carries a NAIVE timestamp — `strptime`
without `%z` yields no tzinfo and the fallback is the naive
`datetime.utcnow()` — so "always normalized to UTC" fails for the
SyslogParser. -/
theorem c4_timestamp_awareness_amended :
    (∀ row n now ev, map_csv_row row n now = Except.ok ev →
      ev.timestamp.aware = true) ∧
    (∀ lines now evs, accessLogParse lines now = Except.ok evs →
      ∀ ev ∈ evs, ev.timestamp.aware = true) ∧
    (∀ line n now,
      (parse_syslog_line line n now).timestamp.aware = false) ∧
    (∀ ts now,
      strptime "%b %d %H:%M:%S %Y" (ts ++ " " ++ natToStr now.year)
        = none →
      parse_syslog_timestamp ts now = pyUtcnow now) := by
  refine ⟨?_, ?_, ?_, ?_⟩
  · exact map_csv_row_aware
  · intro lines now evs h ev hm
    exact accessLogParse_aware lines now evs h ev hm
  · exact parse_syslog_line_naive
  · exact parse_syslog_timestamp_default

/-- C4 amended witness: concrete instances — a parsed CSV row and a
flexible-fallback access-log event are aware; a syslog event is naive;
an unparseable syslog timestamp defaults to now. -/
theorem c4_timestamp_awareness_amended_witness :
    ((map_csv_row [("time", "2026-01-12 10:00:00")] 2
        (PyDateTime.mk 2026 10 12 7 0 0 false)).toOption.elim false
      (fun ev => ev.timestamp.aware)) = true ∧
    ((accessLogParse ["hello world"]
        (PyDateTime.mk 2026 10 12 7 0 0 false)).toOption.elim false
      (fun evs => evs.all (fun ev => ev.timestamp.aware))) = true ∧
    (parse_syslog_line "x" 1
      (PyDateTime.mk 2026 10 12 7 0 0 false)).timestamp.aware = false ∧
    parse_syslog_timestamp "garbage"
        (PyDateTime.mk 2026 10 12 7 0 0 false) =
      pyUtcnow (PyDateTime.mk 2026 10 12 7 0 0 false) := by
  obtain ⟨ev0, hev0⟩ :
      ∃ ev, map_csv_row [("time", "2026-01-12 10:00:00")] 2
        (PyDateTime.mk 2026 10 12 7 0 0 false) = Except.ok ev :=
    ⟨_, rfl⟩
  obtain ⟨evs0, hevs0⟩ :
      ∃ evs, accessLogParse ["hello world"]
        (PyDateTime.mk 2026 10 12 7 0 0 false) = Except.ok evs :=
    ⟨_, rfl⟩
  refine ⟨?_, ?_, ?_, ?_⟩
  · rw [hev0]
    exact c4_timestamp_awareness_amended.1 _ 2 _ ev0 hev0
  · rw [hevs0]
    show evs0.all _ = true
    rw [List.all_eq_true]
    intro ev hm
    exact c4_timestamp_awareness_amended.2.1 _ _ evs0 hevs0 ev hm
  · exact c4_timestamp_awareness_amended.2.2.1 "x" 1 _
  · exact c4_timestamp_awareness_amended.2.2.2 "garbage" _ rfl
